import Mathlib

/-!
Verification development for the PartFinder Pro store-discovery pipeline.

The embedding follows the "FIXED" variants of `src/services/aiStoreLocator.js`
and `src/services/storeFinder.js` (the variants cited by the specification),
together with the rounding behaviour of `geolocationService.calculateDistance`.

Modelling conventions:
- JavaScript numbers are modelled as `ℚ`.  The transcendental haversine core
  of `calculateDistance` (sin/cos/atan2 over floats) is abstracted as a
  parameter `hav : ℚ → ℚ → ℚ → ℚ → ℚ`; the source's rounding of its result to
  one decimal place (`Math.round(d * 10) / 10`) is modelled exactly.
- Fields that may be `undefined` in JavaScript are `Option` valued, and the
  JavaScript truthiness idioms `x || d` and `if (x)` are modelled by `jsNum`,
  `jsCoalesce`, `jsStr` and `truthyQ` (both `undefined` and `0` are falsy).
- Network calls are modelled by `Except`-valued inputs collected in `World`:
  `.error` is a failed fetch / non-2xx status / JSON parse failure, `.ok none`
  is a response in which the JSON extraction regex found no match, and
  `.ok (some v)` is a successfully parsed payload.
- `Array.prototype.sort(cmp)` is modelled by a stable insertion sort `jsSort`
  over the relation `cmp a b ≤ 0` (per ECMAScript, a comparator returning NaN
  is treated as 0; this appears in the distance tie term of the comparators).
- Presentation-only string fields of the source (formatted addresses,
  `distanceFormatted`, directions URLs) are omitted; the price-range string
  `"$lo-$hi"` is modelled structurally by `PriceInfo`.
-/

/-- JavaScript `String.prototype.toLowerCase` (ASCII range, as used by the source). -/
def lowerStr (s : String) : String := String.mk (s.data.map Char.toLower)

/-- Character-list prefix test used to implement substring search. -/
def segAt : List Char → List Char → Bool
  | [], _ => true
  | _ :: _, [] => false
  | a :: as, b :: bs => a == b && segAt as bs

/-- Character-list substring test used to implement substring search. -/
def hasSeg (pat : List Char) : List Char → Bool
  | [] => segAt pat []
  | b :: bs => segAt pat (b :: bs) || hasSeg pat bs

/-- JavaScript `s.includes(pat)`. -/
def strIncludes (s pat : String) : Bool := hasSeg pat.data s.data

/-- JavaScript `arr.join(' ')`. -/
def joinSpace (l : List String) : String := String.intercalate (" ") l

/-- JavaScript truthiness of an optional number (`undefined` and `0` are falsy). -/
def truthyQ : Option ℚ → Bool
  | some v => decide (v ≠ 0)
  | none => false

/-- JavaScript `x || d` for a number-or-undefined `x` and a number default. -/
def jsNum (o : Option ℚ) (d : ℚ) : ℚ :=
  match o with
  | some v => if v = 0 then d else v
  | none => d

/-- JavaScript `a || b` for two number-or-undefined values. -/
def jsCoalesce (a b : Option ℚ) : Option ℚ := if truthyQ a then a else b

/-- JavaScript `x || d` for a string-or-undefined `x` (empty string is falsy). -/
def jsStr (o : Option String) (d : String) : String :=
  match o with
  | some s => if s = "" then d else s
  | none => d

/-- JavaScript `Math.round`: round half toward positive infinity.  Defined via
the executable `Rat.floor` so that the kernel can evaluate it; it agrees with
Mathlib's `round` (see `jsRound_eq_round`). -/
def jsRound (q : ℚ) : ℤ := (q + 1 / 2).floor

/-- `Math.round(q * 10) / 10`: rounding to one decimal place, as in
`geolocationService.calculateDistance` (part_005 lines 92-106). -/
def round1 (q : ℚ) : ℚ := ((jsRound (q * 10) : ℤ) : ℚ) / 10

/-- `geolocationService.calculateDistance`: haversine distance in miles rounded
to one decimal place.  The transcendental haversine core is the abstract
parameter `hav`; the rounding is the source's. -/
def calculateDistance (hav : ℚ → ℚ → ℚ → ℚ → ℚ) (lat1 lon1 lat2 lon2 : ℚ) : ℚ :=
  round1 (hav lat1 lon1 lat2 lon2)

/-- `Math.max(0, Math.min(100, likelihood))` from `heuristicStoreFiltering`. -/
def clampLikelihood (n : Int) : Int := max 0 (min 100 n)

structure Coordinates where
  lat : Option ℚ
  lng : Option ℚ
deriving DecidableEq, Repr

structure GeoPoint where
  latitude : ℚ
  longitude : ℚ
deriving DecidableEq, Repr

structure PartInfo where
  name : String
  category : String
deriving DecidableEq, Repr

/-- Structural model of the `{status, label, color}` objects returned by
`getAvailabilityStatus`. -/
structure AvailabilityInfo where
  status : String
  label : String
  color : String
deriving DecidableEq, Repr

/-- Structural model of the estimated-price data (`price`, and the displayed
range endpoints). -/
structure PriceInfo where
  price : Int
  low : Int
  high : Int
deriving DecidableEq, Repr

/-- A store object flowing through the pipeline.  Optional fields are the ones
the source may leave `undefined`. -/
structure Store where
  id : String
  name : String
  types : List String
  coordinates : Coordinates
  latitude : Option ℚ
  longitude : Option ℚ
  rating : ℚ
  userRatingCount : ℚ
  phone : String
  distance : Option ℚ
  likelihood : Option ℚ
  aiReason : Option String
  relevanceScore : ℚ
  availability : Option AvailabilityInfo
  estimatedPrice : Option PriceInfo
  source : String
deriving DecidableEq, Repr

/-- One entry of the availability oracle's JSON array
`{"index": i, "likelihood": l, "reason": r}`. -/
structure Evaluation where
  index : Int
  likelihood : ℚ
  reason : String
deriving DecidableEq, Repr

/-- One entry of the places-search provider response.  Two-level optional
chains of the source (`place.displayName?.text`) are collapsed to one
`Option`. -/
structure Place where
  pname : Option String
  displayName : Option String
  locLat : Option ℚ
  locLng : Option ℚ
  rating : Option ℚ
  userRatingCount : Option ℚ
  phone : Option String
  ptypes : Option (List String)
  businessStatus : Option String
deriving DecidableEq, Repr

/-- The observable behaviour of the external world during one search request:
configured API keys and the three upstream responses. -/
structure World where
  hasOpenAIKey : Bool
  hasGooglePlacesKey : Bool
  typesResp : Except Unit (Option (List String))
  placesResp : Except Unit (Option (List Place))
  verifyResp : Except Unit (Option (List Evaluation))

/-- `getFallbackStoreTypes` (aiStoreLocator.js lines 720-727). -/
def getFallbackStoreTypes : List String :=
  ["hardware_store", "home_goods_store", "electronics_store", "store"]

/-- The closed set of valid store-type tags accepted by `determineStoreTypes`. -/
def validStoreTypes : List String :=
  ["hardware_store", "home_goods_store", "electronics_store", "store"]

/-- `determineStoreTypes` (aiStoreLocator.js lines 647-712): classify the part
into store-type tags via the oracle, falling back to the fixed set on any
failure, missing JSON, or empty valid-tag list. -/
def determineStoreTypes (hasOpenAIKey : Bool)
    (typesResp : Except Unit (Option (List String))) : List String :=
  if !hasOpenAIKey then getFallbackStoreTypes
  else
    match typesResp with
    | .error _ => getFallbackStoreTypes
    | .ok none => getFallbackStoreTypes
    | .ok (some storeTypes) =>
        let validTypes := storeTypes.filter (fun t => decide (t ∈ validStoreTypes))
        if validTypes.length > 0 then validTypes else getFallbackStoreTypes

/-- Keyword test `storeName.includes('home depot') || storeName.includes('depot')`. -/
def kwDepot (storeName : String) : Bool :=
  strIncludes storeName ("home depot") || strIncludes storeName ("depot")

/-- Keyword test for the Lowe's line. -/
def kwLowe (storeName : String) : Bool :=
  strIncludes storeName ("lowe") || strIncludes storeName ("lowe\x27s")

/-- Keyword test for the Sears/parts line. -/
def kwSearsParts (storeName : String) : Bool :=
  strIncludes storeName ("sears") || strIncludes storeName ("parts")

/-- Keyword test for the appliance line. -/
def kwAppliance (storeName : String) : Bool := strIncludes storeName ("appliance")

/-- Keyword test for the repair line. -/
def kwRepair (storeName : String) : Bool := strIncludes storeName ("repair")

/-- Keyword test for the hardware line. -/
def kwHardware (storeName : String) : Bool := strIncludes storeName ("hardware")

/-- Keyword test for the Ace Hardware line. -/
def kwAceHardware (storeName : String) : Bool := strIncludes storeName ("ace hardware")

/-- Type-tag test for `home_goods_store`. -/
def tyHomeGoods (storeTypes : String) : Bool := strIncludes storeTypes ("home_goods_store")

/-- Type-tag test for `hardware_store`. -/
def tyHardware (storeTypes : String) : Bool := strIncludes storeTypes ("hardware_store")

/-- Type-tag test for `electronics_store`. -/
def tyElectronics (storeTypes : String) : Bool := strIncludes storeTypes ("electronics_store")

/-- Exclusion line: restaurant. -/
def exRestaurant (storeName storeTypes : String) : Bool :=
  strIncludes storeTypes ("restaurant") || strIncludes storeName ("restaurant")

/-- Exclusion line: food. -/
def exFood (storeName storeTypes : String) : Bool :=
  strIncludes storeTypes ("food") || strIncludes storeName ("food")

/-- Exclusion line: clothing. -/
def exClothing (storeName storeTypes : String) : Bool :=
  strIncludes storeTypes ("clothing_store") || strIncludes storeName ("clothing")

/-- Exclusion line: beauty. -/
def exBeauty (storeName storeTypes : String) : Bool :=
  strIncludes storeTypes ("beauty_salon") || strIncludes storeName ("beauty")

/-- Exclusion line: gas station. -/
def exGas (storeName storeTypes : String) : Bool :=
  strIncludes storeTypes ("gas_station") || strIncludes storeName ("gas")

/-- Exclusion line: bank. -/
def exBank (storeName storeTypes : String) : Bool :=
  strIncludes storeTypes ("bank") || strIncludes storeName ("bank")

/-- Exclusion line: pharmacy. -/
def exPharmacy (storeName storeTypes : String) : Bool :=
  strIncludes storeTypes ("pharmacy") || strIncludes storeName ("pharmacy")

/-- Exclusion line: automotive. -/
def exAuto (storeName storeTypes : String) : Bool :=
  strIncludes storeTypes ("car_") || strIncludes storeName ("auto")

/-- Exclusion line: coffee / cafe. -/
def exCafe (storeName : String) : Bool :=
  strIncludes storeName ("coffee") || strIncludes storeName ("cafe")

/-- Exclusion line: hotel / motel. -/
def exHotel (storeName : String) : Bool :=
  strIncludes storeName ("hotel") || strIncludes storeName ("motel")

/-- Exclusion line: school / hospital. -/
def exSchool (storeName : String) : Bool :=
  strIncludes storeName ("school") || strIncludes storeName ("hospital")

/-- Exclusion line: pizza / burger. -/
def exPizza (storeName : String) : Bool :=
  strIncludes storeName ("pizza") || strIncludes storeName ("burger")

/-- Exclusion line: salon / spa. -/
def exSalon (storeName : String) : Bool :=
  strIncludes storeName ("salon") || strIncludes storeName ("spa")

/-- Exclusion line: gym / fitness. -/
def exGym (storeName : String) : Bool :=
  strIncludes storeName ("gym") || strIncludes storeName ("fitness")

/-- Exclusion line: church / temple. -/
def exChurch (storeName : String) : Bool :=
  strIncludes storeName ("church") || strIncludes storeName ("temple")

/-- The hard-exclusion predicate: the disjunction of the fifteen exclusion
lines of `heuristicStoreFiltering` (aiStoreLocator.js lines 957-974). -/
def excludedStore (store : Store) : Bool :=
  let storeName := lowerStr store.name
  let storeTypes := lowerStr (joinSpace store.types)
  exRestaurant storeName storeTypes || exFood storeName storeTypes ||
  exClothing storeName storeTypes || exBeauty storeName storeTypes ||
  exGas storeName storeTypes || exBank storeName storeTypes ||
  exPharmacy storeName storeTypes || exAuto storeName storeTypes ||
  exCafe storeName || exHotel storeName || exSchool storeName ||
  exPizza storeName || exSalon storeName || exGym storeName || exChurch storeName

/-- The sequential likelihood accumulation of `heuristicStoreFiltering`
(aiStoreLocator.js lines 931-974), before clamping. -/
def heuristicRawScore (store : Store) : Int :=
  let storeName := lowerStr store.name
  let storeTypes := lowerStr (joinSpace store.types)
  let likelihood : Int := 20
  let likelihood := if kwDepot storeName = true then likelihood + 50 else likelihood
  let likelihood := if kwLowe storeName = true then likelihood + 50 else likelihood
  let likelihood := if kwSearsParts storeName = true then likelihood + 55 else likelihood
  let likelihood := if kwAppliance storeName = true then likelihood + 45 else likelihood
  let likelihood := if kwRepair storeName = true then likelihood + 40 else likelihood
  let likelihood := if kwHardware storeName = true then likelihood + 35 else likelihood
  let likelihood := if kwAceHardware storeName = true then likelihood + 40 else likelihood
  let likelihood := if tyHomeGoods storeTypes = true then likelihood + 25 else likelihood
  let likelihood := if tyHardware storeTypes = true then likelihood + 30 else likelihood
  let likelihood := if tyElectronics storeTypes = true then likelihood + 20 else likelihood
  let distance := jsNum store.distance 999
  let likelihood :=
    if distance ≤ 1 then likelihood + 15
    else if distance ≤ 2 then likelihood + 10
    else if distance ≤ 3 then likelihood + 5
    else likelihood
  let likelihood := if exRestaurant storeName storeTypes = true then 0 else likelihood
  let likelihood := if exFood storeName storeTypes = true then 0 else likelihood
  let likelihood := if exClothing storeName storeTypes = true then 0 else likelihood
  let likelihood := if exBeauty storeName storeTypes = true then 0 else likelihood
  let likelihood := if exGas storeName storeTypes = true then 0 else likelihood
  let likelihood := if exBank storeName storeTypes = true then 0 else likelihood
  let likelihood := if exPharmacy storeName storeTypes = true then 0 else likelihood
  let likelihood := if exAuto storeName storeTypes = true then 0 else likelihood
  let likelihood := if exCafe storeName = true then 0 else likelihood
  let likelihood := if exHotel storeName = true then 0 else likelihood
  let likelihood := if exSchool storeName = true then 0 else likelihood
  let likelihood := if exPizza storeName = true then 0 else likelihood
  let likelihood := if exSalon storeName = true then 0 else likelihood
  let likelihood := if exGym storeName = true then 0 else likelihood
  let likelihood := if exChurch storeName = true then 0 else likelihood
  likelihood

/-- The cumulative keyword contribution of the heuristic scorer, as a sum of
independent terms (used to characterise `heuristicRawScore`). -/
def keywordPoints (storeName : String) : Int :=
  (if kwDepot storeName = true then 50 else 0) +
  (if kwLowe storeName = true then 50 else 0) +
  (if kwSearsParts storeName = true then 55 else 0) +
  (if kwAppliance storeName = true then 45 else 0) +
  (if kwRepair storeName = true then 40 else 0) +
  (if kwHardware storeName = true then 35 else 0) +
  (if kwAceHardware storeName = true then 40 else 0)

/-- The cumulative type-tag contribution of the heuristic scorer. -/
def typePoints (storeTypes : String) : Int :=
  (if tyHomeGoods storeTypes = true then 25 else 0) +
  (if tyHardware storeTypes = true then 30 else 0) +
  (if tyElectronics storeTypes = true then 20 else 0)

/-- The proximity bonus of the heuristic scorer as a function of the
effective distance. -/
def proximityPoints (d : ℚ) : Int :=
  if d ≤ 1 then 15 else if d ≤ 2 then 10 else if d ≤ 3 then 5 else 0

def heuristicReasonYes : String := "Heuristic evaluation - likely carries appliance parts"

def heuristicReasonNo : String := "Heuristic evaluation - does not carry appliance parts"

/-- JavaScript `likelihood >= t` on a possibly-undefined likelihood
(`undefined >= t` is false). -/
def likAtLeast (o : Option ℚ) (t : ℚ) : Bool :=
  match o with
  | some v => decide (t ≤ v)
  | none => false

/-- The per-store result object built by `heuristicStoreFiltering`: the raw
score clamped to [0, 100] plus the heuristic reason string. -/
def heuristicDecorate (store : Store) : Store :=
  { store with
      likelihood := some ((clampLikelihood (heuristicRawScore store) : Int) : ℚ),
      aiReason := some (if heuristicRawScore store > 0 then heuristicReasonYes
                        else heuristicReasonNo) }

/-- `heuristicStoreFiltering` (aiStoreLocator.js lines 931-982): score every
store, clamp to [0, 100], and keep only scores of at least 60. -/
def heuristicStoreFiltering (stores : List Store) : List Store :=
  (stores.map heuristicDecorate).filter (fun store => likAtLeast store.likelihood 60)

/-- `getAvailabilityStatus` (aiStoreLocator.js lines 989-997, FIXED thresholds
85/70). -/
def getAvailabilityStatus (likelihood : Option ℚ) : AvailabilityInfo :=
  if likAtLeast likelihood 85 = true then
    { status := "likely", label := "Likely In Stock", color := "green" }
  else if likAtLeast likelihood 70 = true then
    { status := "possible", label := "May Have In Stock", color := "orange" }
  else
    { status := "call", label := "Call to Confirm", color := "gray" }

/-- `getEstimatedPrice` (aiStoreLocator.js lines 1004-1009); the displayed
range string `"$(p-10)-$(p+15)"` is modelled structurally. -/
def getEstimatedPrice (likelihood : Option ℚ) : PriceInfo :=
  let basePrice : ℚ := 35
  let variation : ℚ := if likAtLeast likelihood 70 = true then 0.9 else 1.1
  let price : Int := jsRound (basePrice * variation)
  { price := price, low := price - 10, high := price + 15 }

/-- JavaScript `store.distance <= m` (false when distance is `undefined`). -/
def distLe (s : Store) (m : ℚ) : Bool :=
  match s.distance with
  | some d => decide (d ≤ m)
  | none => false

/-- Stable insertion step for the model of `Array.prototype.sort`. -/
def jsInsert {α : Type} (le : α → α → Bool) (x : α) : List α → List α
  | [] => [x]
  | y :: ys => if le x y then x :: y :: ys else y :: jsInsert le x ys

/-- Stable sort modelling `Array.prototype.sort(cmp)` with `le a b`
standing for `cmp(a, b) <= 0`. -/
def jsSort {α : Type} (le : α → α → Bool) : List α → List α
  | [] => []
  | x :: xs => jsInsert le x (jsSort le xs)

/-- Comparator `(a, b) => a.distance - b.distance` (NaN tie when a distance
is undefined). -/
def cmpDistance (a b : Store) : ℚ :=
  match a.distance, b.distance with
  | some x, some y => x - y
  | _, _ => 0

def leDistance (a b : Store) : Bool := decide (cmpDistance a b ≤ 0)

/-- The three archetype stores of `generateFallbackStores` (aiStoreLocator.js
lines 1034-1083), with coordinate offsets scaled by
`Math.min(maxDistance / 5, 1)`. -/
def fallbackArchetypes (u : GeoPoint) (maxDistance : ℚ) : List Store :=
  let m := min (maxDistance / 5) 1
  [ { id := "fallback_hd", name := "The Home Depot",
      types := ["home_goods_store", "hardware_store"],
      coordinates := { lat := some (u.latitude + 0.01 * m),
                       lng := some (u.longitude + 0.01 * m) },
      latitude := none, longitude := none,
      rating := 4.2, userRatingCount := 1250, phone := "(555) 123-4567",
      distance := none, likelihood := some 85,
      aiReason := some "Major home improvement retailer with appliance parts section",
      relevanceScore := 0, availability := none, estimatedPrice := none,
      source := "fallback" },
    { id := "fallback_lowes", name := "Lowe\x27s Home Improvement",
      types := ["home_goods_store", "hardware_store"],
      coordinates := { lat := some (u.latitude - 0.008 * m),
                       lng := some (u.longitude + 0.012 * m) },
      latitude := none, longitude := none,
      rating := 4.1, userRatingCount := 980, phone := "(555) 234-5678",
      distance := none, likelihood := some 80,
      aiReason := some "Home improvement store with appliance section",
      relevanceScore := 0, availability := none, estimatedPrice := none,
      source := "fallback" },
    { id := "fallback_local", name := "Local Appliance Parts Center",
      types := ["store", "establishment"],
      coordinates := { lat := some (u.latitude + 0.005 * m),
                       lng := some (u.longitude - 0.008 * m) },
      latitude := none, longitude := none,
      rating := 4.5, userRatingCount := 156, phone := "(555) 345-6789",
      distance := none, likelihood := some 92,
      aiReason := some "Specialized appliance parts retailer",
      relevanceScore := 0, availability := none, estimatedPrice := none,
      source := "fallback" } ]

/-- The per-store decoration step of `generateFallbackStores`: computed
distance, availability and price. -/
def fallbackDecorate (hav : ℚ → ℚ → ℚ → ℚ → ℚ) (u : GeoPoint) (store : Store) :
    Store :=
  let d := calculateDistance hav u.latitude u.longitude
    (store.coordinates.lat.getD 0) (store.coordinates.lng.getD 0)
  { store with
      distance := some d,
      availability := some (getAvailabilityStatus store.likelihood),
      estimatedPrice := some (getEstimatedPrice store.likelihood) }

/-- `generateFallbackStores` (aiStoreLocator.js lines 1030-1104): decorate the
archetypes with computed distances, availability and price, filter by the
distance budget, and sort by distance. -/
def generateFallbackStores (hav : ℚ → ℚ → ℚ → ℚ → ℚ) (u : GeoPoint)
    (maxDistance : ℚ) : List Store :=
  let storesWithDistance :=
    ((fallbackArchetypes u maxDistance).map (fallbackDecorate hav u)).filter
      (fun store => distLe store maxDistance)
  jsSort leDistance storesWithDistance

/-- Conversion of one places-provider entry to a store object
(aiStoreLocator.js lines 782-799). -/
def convertPlace (u : GeoPoint) (place : Place) : Store :=
  { id := jsStr place.pname ("unknown"),
    name := jsStr place.displayName ("Unknown Store"),
    types := place.ptypes.getD [],
    coordinates := { lat := some (jsNum place.locLat u.latitude),
                     lng := some (jsNum place.locLng u.longitude) },
    latitude := none, longitude := none,
    rating := jsNum place.rating 0,
    userRatingCount := jsNum place.userRatingCount 0,
    phone := jsStr place.phone (""),
    distance := none, likelihood := none, aiReason := none,
    relevanceScore := 0, availability := none, estimatedPrice := none,
    source := "google_places" }

/-- `searchRealNearbyStores` (aiStoreLocator.js lines 736-828, FIXED): query
the places provider, keep operational places, compute each distance
immediately, drop those beyond the budget; any failure or empty result
delegates to `generateFallbackStores`. -/
def searchRealNearbyStores (hav : ℚ → ℚ → ℚ → ℚ → ℚ) (hasGooglePlacesKey : Bool)
    (placesResp : Except Unit (Option (List Place))) (u : GeoPoint)
    (maxDistance : ℚ) : List Store :=
  if !hasGooglePlacesKey then generateFallbackStores hav u maxDistance
  else
    match placesResp with
    | .error _ => generateFallbackStores hav u maxDistance
    | .ok none => generateFallbackStores hav u maxDistance
    | .ok (some places) =>
        if places.length = 0 then generateFallbackStores hav u maxDistance
        else
          ((places.filter
              (fun p => decide (p.businessStatus = some ("OPERATIONAL")))).map
            (fun p =>
              let store := convertPlace u p
              let d := calculateDistance hav u.latitude u.longitude
                (jsNum p.locLat u.latitude) (jsNum p.locLng u.longitude)
              { store with distance := some d })).filter
            (fun store => distLe store maxDistance)

/-- The loop body of the oracle branch of `verifyPartAvailability`: accept an
evaluation only when its (1-based) index is valid and its likelihood is at
least 60. -/
def verifyStep (stores : List Store) (acc : List Store) (evaluation : Evaluation) :
    List Store :=
  let storeIndex : Int := evaluation.index - 1
  if 0 ≤ storeIndex ∧ storeIndex < stores.length ∧ 60 ≤ evaluation.likelihood then
    match stores.get? storeIndex.toNat with
    | some st =>
        acc ++ [{ st with likelihood := some evaluation.likelihood,
                          aiReason := some evaluation.reason }]
    | none => acc
  else acc

/-- `verifyPartAvailability` (aiStoreLocator.js lines 837-922, FIXED): accept
oracle evaluations with a valid index and likelihood at least 60; on oracle
failure, missing JSON, or zero accepted entries, fall back to
`heuristicStoreFiltering`. -/
def verifyPartAvailability (hasOpenAIKey : Bool)
    (verifyResp : Except Unit (Option (List Evaluation)))
    (stores : List Store) : List Store :=
  if !hasOpenAIKey || decide (stores.length = 0) then heuristicStoreFiltering stores
  else
    match verifyResp with
    | .error _ => heuristicStoreFiltering stores
    | .ok none => heuristicStoreFiltering stores
    | .ok (some evaluations) =>
        let verifiedStores := evaluations.foldl (verifyStep stores) []
        if verifiedStores.length = 0 then heuristicStoreFiltering stores
        else verifiedStores

/-- The effective distance used by `applyStrictDistanceFilter`
(`store.distance || calculate(...)`): the cached distance when truthy,
otherwise the distance recomputed from the coordinates when both are present;
`none` models the NaN produced by a missing coordinate. -/
def effectiveDistance (hav : ℚ → ℚ → ℚ → ℚ → ℚ) (u : GeoPoint) (store : Store) :
    Option ℚ :=
  if truthyQ store.distance then store.distance
  else
    match store.coordinates.lat, store.coordinates.lng with
    | some la, some ln => some (calculateDistance hav u.latitude u.longitude la ln)
    | _, _ => none

/-- The per-store body of `applyStrictDistanceFilter` (aiStoreLocator.js lines
595-614): use the cached distance when truthy, otherwise recompute from the
coordinates; keep the store only when the resulting distance is within the
budget. -/
def applyStrictStep (hav : ℚ → ℚ → ℚ → ℚ → ℚ) (u : GeoPoint) (maxDistance : ℚ)
    (store : Store) : Option Store :=
  let dOpt : Option ℚ :=
    if truthyQ store.distance then store.distance
    else
      match store.coordinates.lat, store.coordinates.lng with
      | some la, some ln => some (calculateDistance hav u.latitude u.longitude la ln)
      | _, _ => none
  match dOpt with
  | some d => if d ≤ maxDistance then some { store with distance := some d } else none
  | none => none

/-- `applyStrictDistanceFilter` (aiStoreLocator.js lines 595-614). -/
def applyStrictDistanceFilter (hav : ℚ → ℚ → ℚ → ℚ → ℚ) (stores : List Store)
    (u : GeoPoint) (maxDistance : ℚ) : List Store :=
  stores.filterMap (applyStrictStep hav u maxDistance)

/-- The comparator of `sortByDistanceAndRelevance` (aiStoreLocator.js lines
632-638): relevance first when scores differ by more than 15, distance
otherwise. -/
def cmpAI (a b : Store) : ℚ :=
  if |a.relevanceScore - b.relevanceScore| > 15 then b.relevanceScore - a.relevanceScore
  else
    match a.distance, b.distance with
    | some x, some y => x - y
    | _, _ => 0

def leAI (a b : Store) : Bool := decide (cmpAI a b ≤ 0)

/-- `sortByDistanceAndRelevance` (aiStoreLocator.js lines 622-639): set each
relevance score to `likelihood - distance * 10` (with JavaScript `||`
defaults 50 and 999) and sort with the two-level comparator. -/
def sortByDistanceAndRelevance (stores : List Store) : List Store :=
  jsSort leAI (stores.map (fun store =>
    { store with
        relevanceScore := jsNum store.likelihood 50 - jsNum store.distance 999 * 10 }))

/-- `findNearbyStores` of the AI store locator (aiStoreLocator.js lines
548-586, FIXED): classify, search, verify, strictly filter, sort, and return
the top five; any uncaught error falls back to `generateFallbackStores`. -/
def findNearbyStoresE (hav : ℚ → ℚ → ℚ → ℚ → ℚ) (w : World) (part : PartInfo)
    (userLocation : GeoPoint) (maxDistance : ℚ) : Except String (List Store) :=
  let body : Except String (List Store) := do
    let _storeTypes := determineStoreTypes w.hasOpenAIKey w.typesResp
    let stores := searchRealNearbyStores hav w.hasGooglePlacesKey w.placesResp
      userLocation maxDistance
    let verifiedStores := verifyPartAvailability w.hasOpenAIKey w.verifyResp stores
    let filteredStores := applyStrictDistanceFilter hav verifiedStores userLocation
      maxDistance
    let sortedStores := sortByDistanceAndRelevance filteredStores
    pure (sortedStores.take 5)
  match body with
  | .ok v => .ok v
  | .error _ => .ok (generateFallbackStores hav userLocation maxDistance)

/-- The per-store body of `filterStoresByDistance` (storeFinder.js lines
60-91): use the distance when defined, otherwise compute it from the first
usable coordinates, excluding the store when no coordinates are usable. -/
def sfFilterStep (hav : ℚ → ℚ → ℚ → ℚ → ℚ) (u : GeoPoint) (maxDistance : ℚ)
    (store : Store) : Option Store :=
  match store.distance with
  | some d => if d ≤ maxDistance then some store else none
  | none =>
      let storeLat := jsCoalesce store.coordinates.lat store.latitude
      let storeLng := jsCoalesce store.coordinates.lng store.longitude
      if truthyQ storeLat = true ∧ truthyQ storeLng = true then
        let d := calculateDistance hav u.latitude u.longitude
          (storeLat.getD 0) (storeLng.getD 0)
        if d ≤ maxDistance then some { store with distance := some d } else none
      else none

/-- `filterStoresByDistance` (storeFinder.js lines 60-91). -/
def filterStoresByDistance (hav : ℚ → ℚ → ℚ → ℚ → ℚ) (stores : List Store)
    (u : GeoPoint) (maxDistance : ℚ) : List Store :=
  stores.filterMap (sfFilterStep hav u maxDistance)

/-- `getAvailabilityStatus` of the store finder (storeFinder.js lines
152-162). -/
def sfGetAvailabilityStatus (likelihood : ℚ) : AvailabilityInfo :=
  if 85 ≤ likelihood then
    { status := "in-stock", label := "Likely In Stock", color := "green" }
  else if 70 ≤ likelihood then
    { status := "possible", label := "May Have In Stock", color := "orange" }
  else if 50 ≤ likelihood then
    { status := "call", label := "Call to Confirm", color := "gray" }
  else
    { status := "unlikely", label := "Unlikely to Have", color := "red" }

/-- `getEstimatedPrice` of the store finder (storeFinder.js lines 170-212). -/
def sfGetEstimatedPrice (part : PartInfo) (store : Store) : PriceInfo :=
  let basePrice : ℚ := 35
  let basePrice :=
    if part.category ≠ "" then
      let category := lowerStr part.category
      let b := if strIncludes category ("filter") = true then 25 else basePrice
      let b :=
        if (strIncludes category ("seal") || strIncludes category ("gasket")) = true
        then 30 else b
      let b :=
        if (strIncludes category ("motor") || strIncludes category ("pump")) = true
        then 85 else b
      let b :=
        if (strIncludes category ("control") || strIncludes category ("board")) = true
        then 120 else b
      b
    else basePrice
  let likelihood := jsNum store.likelihood 50
  let priceMultiplier : ℚ :=
    if 85 ≤ likelihood then 0.9 else if 70 ≤ likelihood then 1.0 else 1.1
  let storeName := lowerStr store.name
  let priceMultiplier :=
    if (strIncludes storeName ("home depot") || strIncludes storeName ("lowe")) = true
    then priceMultiplier * 0.95
    else if (strIncludes storeName ("parts") || strIncludes storeName ("appliance")) = true
    then priceMultiplier * 1.05
    else priceMultiplier
  let estimatedPrice : Int := jsRound (basePrice * priceMultiplier)
  { price := estimatedPrice,
    low := jsRound ((estimatedPrice : ℚ) * 0.85),
    high := jsRound ((estimatedPrice : ℚ) * 1.15) }

/-- The decoration step of the store finder's `sortByDistanceAndRelevance`
(storeFinder.js lines 100-137): ensure distance, set the relevance score
`likelihood - distance * 5`, and default availability and price. -/
def sfDecorate (hav : ℚ → ℚ → ℚ → ℚ → ℚ) (u : GeoPoint) (part : PartInfo)
    (store : Store) : Store :=
  let store :=
    match store.distance with
    | some _ => store
    | none =>
        let storeLat := jsCoalesce store.coordinates.lat store.latitude
        let storeLng := jsCoalesce store.coordinates.lng store.longitude
        if truthyQ storeLat = true ∧ truthyQ storeLng = true then
          { store with distance := some (calculateDistance hav u.latitude u.longitude
              (storeLat.getD 0) (storeLng.getD 0)) }
        else store
  let likelihood := jsNum store.likelihood 50
  let distance := jsNum store.distance 999
  let store := { store with relevanceScore := likelihood - distance * 5 }
  let store :=
    match store.availability with
    | none => { store with availability := some (sfGetAvailabilityStatus likelihood) }
    | some _ => store
  let store :=
    match store.estimatedPrice with
    | none => { store with estimatedPrice := some (sfGetEstimatedPrice part store) }
    | some _ => store
  store

/-- The comparator of the store finder's sort (storeFinder.js lines 138-144):
tie-break threshold 10, distance penalty 5. -/
def cmpSF (a b : Store) : ℚ :=
  if |a.relevanceScore - b.relevanceScore| > 10 then b.relevanceScore - a.relevanceScore
  else
    match a.distance, b.distance with
    | some x, some y => x - y
    | _, _ => 0

def leSF (a b : Store) : Bool := decide (cmpSF a b ≤ 0)

/-- `sortByDistanceAndRelevance` of the store finder (storeFinder.js lines
100-145). -/
def sfSortByDistanceAndRelevance (hav : ℚ → ℚ → ℚ → ℚ → ℚ) (stores : List Store)
    (u : GeoPoint) (part : PartInfo) : List Store :=
  jsSort leSF (stores.map (sfDecorate hav u part))

/-- `findNearbyStores` of the store finder (storeFinder.js lines 21-51,
FIXED): delegate to the AI locator, re-filter by distance, sort, and return
the top five; an uncaught error is rethrown as a generic failure. -/
def storeFinderFindNearbyStoresE (hav : ℚ → ℚ → ℚ → ℚ → ℚ) (w : World)
    (part : PartInfo) (userLocation : GeoPoint) (maxDistance : ℚ) :
    Except String (List Store) :=
  let body : Except String (List Store) := do
    let stores ← findNearbyStoresE hav w part userLocation maxDistance
    let filteredStores := filterStoresByDistance hav stores userLocation maxDistance
    let sortedStores := sfSortByDistanceAndRelevance hav filteredStores userLocation part
    pure (sortedStores.take 5)
  match body with
  | .ok v => .ok v
  | .error _ => .error ("Failed to find nearby stores")

/-- Refinement comparison for the distance filter, following the words of the
specification: "Recomputes distance for every candidate (even if already
set) and drops any whose distance strictly exceeds the budget." -/
def applyStrictDistanceFilterSpec (hav : ℚ → ℚ → ℚ → ℚ → ℚ) (stores : List Store)
    (u : GeoPoint) (maxDistance : ℚ) : List Store :=
  stores.filterMap (fun store =>
    match store.coordinates.lat, store.coordinates.lng with
    | some la, some ln =>
        let d := calculateDistance hav u.latitude u.longitude la ln
        if d ≤ maxDistance then some { store with distance := some d } else none
    | _, _ => none)

/-- Refinement comparison for the heuristic scorer, following the words of the
specification for the proximity bonus: "≤ 1 mile adds +15, ≤ 2 miles adds
+10, ≤ 3 miles adds +5, beyond that no bonus" applied to the candidate's
distance whenever one is present. -/
def heuristicRawScoreSpec (store : Store) : Int :=
  let storeName := lowerStr store.name
  let storeTypes := lowerStr (joinSpace store.types)
  let base : Int := 20 + keywordPoints storeName + typePoints storeTypes +
    (match store.distance with
     | some d => proximityPoints d
     | none => 0)
  if excludedStore store = true then 0 else base

/-- Refinement comparison for the heuristic filter, following the words of the
specification: clamp to [0, 100] and drop candidates below 60. -/
def heuristicStoreFilteringSpec (stores : List Store) : List Store :=
  (stores.map (fun store =>
    { store with
        likelihood := some ((clampLikelihood (heuristicRawScoreSpec store) : Int) : ℚ),
        aiReason := some (if heuristicRawScoreSpec store > 0 then heuristicReasonYes
                          else heuristicReasonNo) })).filter
    (fun store => likAtLeast store.likelihood 60)

/-- The list produced by the happy path of the AI locator's `findNearbyStores`
(the composition of its five pipeline stages). -/
def aiPipelineResult (hav : ℚ → ℚ → ℚ → ℚ → ℚ) (w : World) (u : GeoPoint)
    (maxDistance : ℚ) : List Store :=
  (sortByDistanceAndRelevance (applyStrictDistanceFilter hav
    (verifyPartAvailability w.hasOpenAIKey w.verifyResp
      (searchRealNearbyStores hav w.hasGooglePlacesKey w.placesResp u maxDistance))
    u maxDistance)).take 5

/-- The list produced by the happy path of the store finder's
`findNearbyStores`. -/
def sfPipelineResult (hav : ℚ → ℚ → ℚ → ℚ → ℚ) (w : World) (part : PartInfo)
    (u : GeoPoint) (maxDistance : ℚ) : List Store :=
  (sfSortByDistanceAndRelevance hav
    (filterStoresByDistance hav (aiPipelineResult hav w u maxDistance) u maxDistance)
    u part).take 5

/-- Invariant: the store's coordinates are present and its distance field holds
exactly the (rounded) computed distance from the request origin to those
coordinates. -/
def DistOk (hav : ℚ → ℚ → ℚ → ℚ → ℚ) (u : GeoPoint) (s : Store) : Prop :=
  ∃ la ln, s.coordinates.lat = some la ∧ s.coordinates.lng = some ln ∧
    s.distance = some (calculateDistance hav u.latitude u.longitude la ln)

/-- Invariant: the store's distance field is defined and within the budget. -/
def WithinB (maxDistance : ℚ) (s : Store) : Prop :=
  ∃ d, s.distance = some d ∧ d ≤ maxDistance

/-- An exact-distance instance that is identically 0 (used for concrete runs). -/
def hav0 : ℚ → ℚ → ℚ → ℚ → ℚ := fun _ _ _ _ => 0

/-- An exact-distance instance that is identically 2 (used for concrete runs). -/
def hav2 : ℚ → ℚ → ℚ → ℚ → ℚ := fun _ _ _ _ => 2

/-- An exact-distance instance that is identically 100 (used for concrete runs). -/
def hav100 : ℚ → ℚ → ℚ → ℚ → ℚ := fun _ _ _ _ => 100

/-- A concrete request origin. -/
def u0 : GeoPoint := { latitude := 0, longitude := 0 }

/-- A concrete part. -/
def p0 : PartInfo := { name := "Dishwasher Door Seal", category := "Seals & Gaskets" }

/-- A concrete operational place returned by the search provider. -/
def place1 : Place :=
  { pname := none, displayName := some "Parts Appliance", locLat := some 0.1,
    locLng := some 0.1, rating := none, userRatingCount := none, phone := none,
    ptypes := some ["hardware_store"], businessStatus := some "OPERATIONAL" }

/-- A concrete world: no classification oracle, a places provider returning one
store, and a failing availability oracle. -/
def w1 : World :=
  { hasOpenAIKey := false, hasGooglePlacesKey := true,
    typesResp := .error (), placesResp := .ok (some [place1]), verifyResp := .error () }

/-- The store the pipeline returns for `w1` with exact distance `hav2`. -/
def w1out : Store :=
  { id := "unknown", name := "Parts Appliance", types := ["hardware_store"],
    coordinates := { lat := some 0.1, lng := some 0.1 },
    latitude := none, longitude := none, rating := 0, userRatingCount := 0,
    phone := "", distance := some 2, likelihood := some 100,
    aiReason := some heuristicReasonYes, relevanceScore := 90,
    availability := some { status := "in-stock", label := "Likely In Stock", color := "green" },
    estimatedPrice := some { price := 28, low := 24, high := 32 },
    source := "google_places" }

/-- A store with a cached (stale) distance of 1 mile. -/
def s4 : Store :=
  { id := "s4", name := "Cached Distance Store", types := [],
    coordinates := { lat := some 1, lng := some 1 },
    latitude := none, longitude := none, rating := 0, userRatingCount := 0,
    phone := "", distance := some 1, likelihood := none, aiReason := none,
    relevanceScore := 0, availability := none, estimatedPrice := none, source := "" }

/-- A hardware store sitting exactly at the request origin (distance 0). -/
def s6 : Store :=
  { id := "s6", name := "zz", types := ["hardware_store"],
    coordinates := { lat := some 1, lng := some 1 },
    latitude := none, longitude := none, rating := 0, userRatingCount := 0,
    phone := "", distance := some 0, likelihood := none, aiReason := none,
    relevanceScore := 0, availability := none, estimatedPrice := none, source := "" }

/-- A plain appliance-parts store 1.5 miles away. -/
def s6w : Store :=
  { id := "s6w", name := "sears outlet", types := [],
    coordinates := { lat := some 1, lng := some 1 },
    latitude := none, longitude := none, rating := 0, userRatingCount := 0,
    phone := "", distance := some 1.5, likelihood := none, aiReason := none,
    relevanceScore := 0, availability := none, estimatedPrice := none, source := "" }

/-- A hybrid name matching both a strong keyword and the cafe exclusion. -/
def hdCafe : Store :=
  { id := "hdc", name := "Home Depot Cafe", types := ["hardware_store"],
    coordinates := { lat := some 1, lng := some 1 },
    latitude := none, longitude := none, rating := 0, userRatingCount := 0,
    phone := "", distance := some 1, likelihood := none, aiReason := none,
    relevanceScore := 0, availability := none, estimatedPrice := none, source := "" }

/-- An oracle response list of five duplicated valid tags. -/
def dupTags : List String :=
  ["hardware_store", "hardware_store", "hardware_store", "hardware_store", "hardware_store"]

/-- A generic candidate store for the availability verifier. -/
def sC9 : Store :=
  { id := "sc9", name := "Some Store", types := [],
    coordinates := { lat := some 1, lng := some 1 },
    latitude := none, longitude := none, rating := 0, userRatingCount := 0,
    phone := "", distance := some 1, likelihood := none, aiReason := none,
    relevanceScore := 0, availability := none, estimatedPrice := none, source := "" }

/-- An oracle evaluation claiming likelihood 150 (out of bounds). -/
def evalBad : Evaluation := { index := 1, likelihood := 150, reason := "r" }

/-- An appliance-repair store fed to the heuristic fallback path. -/
def s9w : Store :=
  { id := "s9w", name := "appliance repair shop", types := [],
    coordinates := { lat := some 1, lng := some 1 },
    latitude := none, longitude := none, rating := 0, userRatingCount := 0,
    phone := "", distance := none, likelihood := none, aiReason := none,
    relevanceScore := 0, availability := none, estimatedPrice := none, source := "" }

/-- A store with neither a distance nor any usable coordinates. -/
def s10 : Store :=
  { id := "s10", name := "No Coordinates Store", types := [],
    coordinates := { lat := none, lng := none },
    latitude := none, longitude := none, rating := 0, userRatingCount := 0,
    phone := "", distance := none, likelihood := none, aiReason := none,
    relevanceScore := 0, availability := none, estimatedPrice := none, source := "" }

/-- Ranking scenario: likelihood 100 at a rounded distance of exactly 0.0
miles (reachable: any candidate within 0.05 miles of the origin). -/
def c3a : Store :=
  { id := "a", name := "Store A", types := [],
    coordinates := { lat := some 1, lng := some 1 },
    latitude := none, longitude := none, rating := 0, userRatingCount := 0,
    phone := "", distance := some 0, likelihood := some 100, aiReason := none,
    relevanceScore := 0, availability := none, estimatedPrice := none, source := "" }

/-- Ranking scenario: likelihood 60 at 0.5 miles. -/
def c3b : Store :=
  { id := "b", name := "Store B", types := [],
    coordinates := { lat := some 1, lng := some 1 },
    latitude := none, longitude := none, rating := 0, userRatingCount := 0,
    phone := "", distance := some 0.5, likelihood := some 60, aiReason := none,
    relevanceScore := 0, availability := none, estimatedPrice := none, source := "" }

/-- A store with a cached distance of exactly 0 (falsy, so the strict filter
recomputes it from the coordinates). -/
def s4z : Store :=
  { id := "s4z", name := "Zero Distance Store", types := [],
    coordinates := { lat := some 1, lng := some 1 },
    latitude := none, longitude := none, rating := 0, userRatingCount := 0,
    phone := "", distance := some 0, likelihood := none, aiReason := none,
    relevanceScore := 0, availability := none, estimatedPrice := none, source := "" }

/-! ### Generic lemmas about the sort model and rounding -/

theorem jsInsert_perm {α : Type} (le : α → α → Bool) (x : α) (l : List α) :
    List.Perm (jsInsert le x l) (x :: l) := by
  induction l with
  | nil => simp [jsInsert]
  | cons y ys ih =>
      simp only [jsInsert]
      by_cases h : le x y = true
      · simp [h]
      · simp only [h, if_false]
        exact (ih.cons y).trans (List.Perm.swap x y ys)

theorem jsSort_perm {α : Type} (le : α → α → Bool) (l : List α) :
    List.Perm (jsSort le l) l := by
  induction l with
  | nil => simp [jsSort]
  | cons x xs ih => exact (jsInsert_perm le x (jsSort le xs)).trans (ih.cons x)

theorem mem_jsSort {α : Type} {le : α → α → Bool} {l : List α} {a : α} :
    a ∈ jsSort le l ↔ a ∈ l :=
  (jsSort_perm le l).mem_iff

theorem length_jsSort {α : Type} (le : α → α → Bool) (l : List α) :
    (jsSort le l).length = l.length :=
  (jsSort_perm le l).length_eq

theorem chain'_jsInsert {α : Type} {le : α → α → Bool}
    (htot : ∀ a b, le a b = true ∨ le b a = true) (x : α) :
    ∀ {l : List α}, List.Chain' (fun a b => le a b = true) l →
      List.Chain' (fun a b => le a b = true) (jsInsert le x l) := by
  intro l
  induction l with
  | nil => intro _; simp [jsInsert]
  | cons y ys ih =>
      intro h
      simp only [jsInsert]
      by_cases hxy : le x y = true
      · rw [if_pos hxy]
        exact List.chain'_cons.mpr ⟨hxy, h⟩
      · rw [if_neg hxy]
        have hys : List.Chain' (fun a b => le a b = true) ys := h.tail
        have hyx : le y x = true := by
          rcases htot x y with h' | h'
          · exact absurd h' hxy
          · exact h'
        rw [List.chain'_cons']
        refine ⟨?_, ih hys⟩
        intro z hz
        cases ys with
        | nil =>
            simp [jsInsert] at hz
            subst hz; exact hyx
        | cons a as =>
            simp only [jsInsert] at hz
            by_cases hxa : le x a = true
            · rw [if_pos hxa] at hz
              simp only [List.head?_cons, Option.mem_def, Option.some.injEq] at hz
              subst hz; exact hyx
            · rw [if_neg hxa] at hz
              simp only [List.head?_cons, Option.mem_def, Option.some.injEq] at hz
              subst hz
              exact (List.chain'_cons.mp h).1

theorem chain'_jsSort {α : Type} {le : α → α → Bool}
    (htot : ∀ a b, le a b = true ∨ le b a = true) (l : List α) :
    List.Chain' (fun a b => le a b = true) (jsSort le l) := by
  induction l with
  | nil => simp [jsSort]
  | cons x xs ih => exact chain'_jsInsert htot x ih

theorem chain'_imp_of_mem {α : Type} {R P : α → α → Prop} {Q : α → Prop} :
    ∀ {l : List α}, (∀ a ∈ l, Q a) → (∀ a b, Q a → Q b → R a b → P a b) →
      List.Chain' R l → List.Chain' P l := by
  intro l
  induction l with
  | nil => intro _ _ _; simp
  | cons x xs ih =>
      intro hQ himp h
      rw [List.chain'_cons'] at h ⊢
      refine ⟨?_, ih (fun a ha => hQ a (List.mem_cons_of_mem _ ha)) himp h.2⟩
      intro z hz
      have hzmem : z ∈ xs := by
        cases xs with
        | nil => simp at hz
        | cons b bs =>
            simp only [List.head?_cons, Option.mem_def, Option.some.injEq] at hz
            subst hz; exact List.mem_cons_self _ _
      exact himp x z (hQ x (List.mem_cons_self _ _))
        (hQ z (List.mem_cons_of_mem _ hzmem)) (h.1 z hz)

/-- The executable rounding agrees with Mathlib's `round`. -/
theorem jsRound_eq_round (q : ℚ) : jsRound q = round q := by
  rw [round_eq, jsRound]
  rfl

/-- The source stores distances rounded to one decimal; the exact value exceeds
the stored one by at most 0.05. -/
theorem le_round1_add_eps (q : ℚ) : q ≤ round1 q + 1 / 20 := by
  have h := abs_sub_round (q * 10)
  rw [abs_le] at h
  have h2 := h.2
  unfold round1
  rw [jsRound_eq_round]
  have : (q * 10 : ℚ) - (round (q * 10) : ℤ) ≤ 1 / 2 := h2
  linarith

theorem distLe_true {s : Store} {m : ℚ} (h : distLe s m = true) :
    ∃ d, s.distance = some d ∧ d ≤ m := by
  unfold distLe at h
  cases hd : s.distance with
  | none => rw [hd] at h; simp at h
  | some d =>
      rw [hd] at h
      exact ⟨d, rfl, of_decide_eq_true h⟩

theorem likAtLeast_true {o : Option ℚ} {t : ℚ} (h : likAtLeast o t = true) :
    ∃ v, o = some v ∧ t ≤ v := by
  unfold likAtLeast at h
  cases ho : o with
  | none => rw [ho] at h; simp at h
  | some v =>
      rw [ho] at h
      exact ⟨v, rfl, of_decide_eq_true h⟩

theorem store_eta_distance (s : Store) (d : Option ℚ) (h : s.distance = d) :
    { s with distance := d } = s := by
  cases s
  simp only at h
  subst h
  rfl

/-! ### Characterisation of the heuristic scorer -/

theorem ite_add_shift (c : Prop) [Decidable c] (l k : Int) :
    (if c then l + k else l) = l + (if c then k else 0) := by
  split <;> simp

theorem prox_shift (c1 c2 c3 : Prop) [Decidable c1] [Decidable c2] [Decidable c3]
    (l : Int) :
    (if c1 then l + 15 else if c2 then l + 10 else if c3 then l + 5 else l) =
      l + (if c1 then 15 else if c2 then 10 else if c3 then 5 else 0) := by
  split_ifs <;> simp

/-- The sequential accumulation of `heuristicStoreFiltering` equals the
hard-exclusion override of the base-plus-bonuses sum. -/
theorem heuristicRawScore_eq (s : Store) :
    heuristicRawScore s =
      if excludedStore s = true then 0
      else 20 + keywordPoints (lowerStr s.name) + typePoints (lowerStr (joinSpace s.types)) +
        proximityPoints (jsNum s.distance 999) := by
  simp only [heuristicRawScore, excludedStore, keywordPoints, typePoints, proximityPoints]
  generalize lowerStr s.name = nm
  generalize lowerStr (joinSpace s.types) = ty
  generalize jsNum s.distance 999 = dq
  by_cases hx15 : exChurch nm = true
  · simp [hx15]
  by_cases hx14 : exGym nm = true
  · simp [hx15, hx14]
  by_cases hx13 : exSalon nm = true
  · simp [hx15, hx14, hx13]
  by_cases hx12 : exPizza nm = true
  · simp [hx15, hx14, hx13, hx12]
  by_cases hx11 : exSchool nm = true
  · simp [hx15, hx14, hx13, hx12, hx11]
  by_cases hx10 : exHotel nm = true
  · simp [hx15, hx14, hx13, hx12, hx11, hx10]
  by_cases hx9 : exCafe nm = true
  · simp [hx15, hx14, hx13, hx12, hx11, hx10, hx9]
  by_cases hx8 : exAuto nm ty = true
  · simp [hx15, hx14, hx13, hx12, hx11, hx10, hx9, hx8]
  by_cases hx7 : exPharmacy nm ty = true
  · simp [hx15, hx14, hx13, hx12, hx11, hx10, hx9, hx8, hx7]
  by_cases hx6 : exBank nm ty = true
  · simp [hx15, hx14, hx13, hx12, hx11, hx10, hx9, hx8, hx7, hx6]
  by_cases hx5 : exGas nm ty = true
  · simp [hx15, hx14, hx13, hx12, hx11, hx10, hx9, hx8, hx7, hx6, hx5]
  by_cases hx4 : exBeauty nm ty = true
  · simp [hx15, hx14, hx13, hx12, hx11, hx10, hx9, hx8, hx7, hx6, hx5, hx4]
  by_cases hx3 : exClothing nm ty = true
  · simp [hx15, hx14, hx13, hx12, hx11, hx10, hx9, hx8, hx7, hx6, hx5, hx4, hx3]
  by_cases hx2 : exFood nm ty = true
  · simp [hx15, hx14, hx13, hx12, hx11, hx10, hx9, hx8, hx7, hx6, hx5, hx4, hx3, hx2]
  by_cases hx1 : exRestaurant nm ty = true
  · simp [hx15, hx14, hx13, hx12, hx11, hx10, hx9, hx8, hx7, hx6, hx5, hx4, hx3, hx2, hx1]
  simp only [Bool.not_eq_true] at hx1 hx2 hx3 hx4 hx5 hx6 hx7 hx8 hx9 hx10 hx11 hx12
  simp only [Bool.not_eq_true] at hx13 hx14 hx15
  simp only [hx15, hx14, hx13, hx12, hx11, hx10, hx9, hx8, hx7, hx6, hx5, hx4, hx3, hx2,
    hx1, Bool.false_eq_true, if_false, Bool.or_self]
  by_cases hd1 : dq ≤ 1
  · simp only [hd1, if_true, ite_add_shift]
    ring
  · simp only [hd1, if_false, ite_add_shift]
    by_cases hd2 : dq ≤ 2
    · simp only [hd2, if_true, ite_add_shift]
      ring
    · simp only [hd2, if_false]
      by_cases hd3 : dq ≤ 3
      · simp only [hd3, if_true, ite_add_shift]
        ring
      · simp only [hd3, if_false, ite_add_shift]
        ring

/-! ### Heuristic filter and verifier membership lemmas -/

theorem heuristicDecorate_coordinates (s : Store) :
    (heuristicDecorate s).coordinates = s.coordinates := rfl

theorem heuristicDecorate_distance (s : Store) :
    (heuristicDecorate s).distance = s.distance := rfl

theorem heuristicDecorate_name (s : Store) :
    (heuristicDecorate s).name = s.name := rfl

theorem heuristicDecorate_types (s : Store) :
    (heuristicDecorate s).types = s.types := rfl

theorem excludedStore_heuristicDecorate (s : Store) :
    excludedStore (heuristicDecorate s) = excludedStore s := rfl

theorem mem_heuristicStoreFiltering {stores : List Store} {s' : Store} :
    s' ∈ heuristicStoreFiltering stores ↔
      ∃ s ∈ stores, s' = heuristicDecorate s ∧
        (60 : ℚ) ≤ ((clampLikelihood (heuristicRawScore s) : ℤ) : ℚ) := by
  unfold heuristicStoreFiltering
  rw [List.mem_filter]
  constructor
  · rintro ⟨hmem, hpred⟩
    rcases List.mem_map.mp hmem with ⟨s, hs, rfl⟩
    rcases likAtLeast_true hpred with ⟨v, hv, hle⟩
    have : v = ((clampLikelihood (heuristicRawScore s) : ℤ) : ℚ) := by
      have : (heuristicDecorate s).likelihood =
          some ((clampLikelihood (heuristicRawScore s) : ℤ) : ℚ) := rfl
      rw [this] at hv
      exact (Option.some.injEq _ _ ▸ hv).symm
    exact ⟨s, hs, rfl, this ▸ hle⟩
  · rintro ⟨s, hs, rfl, hle⟩
    refine ⟨List.mem_map.mpr ⟨s, hs, rfl⟩, ?_⟩
    unfold likAtLeast
    have : (heuristicDecorate s).likelihood =
        some ((clampLikelihood (heuristicRawScore s) : ℤ) : ℚ) := rfl
    rw [this]
    exact decide_eq_true hle

theorem clampLikelihood_nonneg (n : Int) : 0 ≤ clampLikelihood n := le_max_left 0 _

theorem clampLikelihood_le_100 (n : Int) : clampLikelihood n ≤ 100 := by
  unfold clampLikelihood
  rcases le_total 0 (min 100 n) with h | h
  · rw [max_eq_right h]
    exact min_le_left _ _
  · rw [max_eq_left h]
    linarith [min_le_left (100 : ℤ) n]

/-- Every store surviving the heuristic filter carries an integer likelihood
between 60 and 100. -/
theorem heuristic_output_likelihood {stores : List Store} {s' : Store}
    (h : s' ∈ heuristicStoreFiltering stores) :
    ∃ n : ℤ, s'.likelihood = some (n : ℚ) ∧ 0 ≤ n ∧ n ≤ 100 ∧ 60 ≤ n := by
  rcases mem_heuristicStoreFiltering.mp h with ⟨s, _, rfl, hle⟩
  refine ⟨clampLikelihood (heuristicRawScore s), rfl, clampLikelihood_nonneg _,
    clampLikelihood_le_100 _, ?_⟩
  exact_mod_cast hle

/-- Membership characterisation of the oracle fold in `verifyPartAvailability`. -/
theorem verify_fold_mem {P : Store → Prop} (stores : List Store)
    (horacle : ∀ s ∈ stores, ∀ ev : Evaluation, 60 ≤ ev.likelihood →
      P { s with likelihood := some ev.likelihood, aiReason := some ev.reason }) :
    ∀ (evals : List Evaluation) (acc : List Store), (∀ x ∈ acc, P x) →
      ∀ s' ∈ evals.foldl (verifyStep stores) acc, P s' := by
  intro evals
  induction evals with
  | nil => intro acc hacc s' hs'; exact hacc s' hs'
  | cons ev evs ih =>
      intro acc hacc s' hs'
      rw [List.foldl_cons] at hs'
      refine ih (verifyStep stores acc ev) ?_ s' hs'
      intro x hx
      unfold verifyStep at hx
      by_cases hguard : (0 : ℤ) ≤ ev.index - 1 ∧ ev.index - 1 < stores.length ∧
          (60 : ℚ) ≤ ev.likelihood
      · rw [if_pos hguard] at hx
        cases hget : stores.get? (ev.index - 1).toNat with
        | none => rw [hget] at hx; exact hacc x hx
        | some st =>
            rw [hget] at hx
            rcases List.mem_append.mp hx with hx | hx
            · exact hacc x hx
            · rcases List.mem_singleton.mp hx with rfl
              exact horacle st (List.get?_mem hget) ev hguard.2.2
      · rw [if_neg hguard] at hx
        exact hacc x hx

/-- Every store returned by `verifyPartAvailability` satisfies any property
that holds of heuristic outputs and of oracle-accepted decorations. -/
theorem verify_mem_cases {P : Store → Prop} (hasKey : Bool)
    (resp : Except Unit (Option (List Evaluation))) (stores : List Store)
    (hheur : ∀ s' ∈ heuristicStoreFiltering stores, P s')
    (horacle : ∀ s ∈ stores, ∀ ev : Evaluation, 60 ≤ ev.likelihood →
      P { s with likelihood := some ev.likelihood, aiReason := some ev.reason }) :
    ∀ s' ∈ verifyPartAvailability hasKey resp stores, P s' := by
  intro s' hs'
  unfold verifyPartAvailability at hs'
  by_cases hkey : (!hasKey || decide (stores.length = 0)) = true
  · rw [if_pos hkey] at hs'
    exact hheur s' hs'
  · rw [if_neg hkey] at hs'
    cases hresp : resp with
    | error e => rw [hresp] at hs'; exact hheur s' hs'
    | ok o =>
        cases o with
        | none => rw [hresp] at hs'; exact hheur s' hs'
        | some evaluations =>
            rw [hresp] at hs'
            simp only at hs'
            by_cases hlen : (evaluations.foldl (verifyStep stores) []).length = 0
            · rw [if_pos hlen] at hs'
              exact hheur s' hs'
            · rw [if_neg hlen] at hs'
              exact verify_fold_mem stores horacle evaluations [] (by simp) s' hs'

/-! ### Distance invariants through the pipeline -/

theorem DistOk_transfer {hav : ℚ → ℚ → ℚ → ℚ → ℚ} {u : GeoPoint} {a b : Store}
    (hc : a.coordinates = b.coordinates) (hd : a.distance = b.distance)
    (h : DistOk hav u b) : DistOk hav u a := by
  rcases h with ⟨la, ln, h1, h2, h3⟩
  exact ⟨la, ln, by rw [hc]; exact h1, by rw [hc]; exact h2, by rw [hd]; exact h3⟩

theorem WithinB_transfer {maxD : ℚ} {a b : Store} (hd : a.distance = b.distance)
    (h : WithinB maxD b) : WithinB maxD a := by
  rcases h with ⟨d, h1, h2⟩
  exact ⟨d, by rw [hd]; exact h1, h2⟩

theorem genFallback_inv (hav : ℚ → ℚ → ℚ → ℚ → ℚ) (u : GeoPoint) (maxD : ℚ) :
    ∀ s ∈ generateFallbackStores hav u maxD,
      DistOk hav u s ∧ WithinB maxD s ∧ s.source = "fallback" := by
  intro s hs
  unfold generateFallbackStores at hs
  rw [mem_jsSort, List.mem_filter] at hs
  rcases hs with ⟨hmem, hpred⟩
  rcases List.mem_map.mp hmem with ⟨a, ha, rfl⟩
  rcases distLe_true hpred with ⟨d, hd, hdle⟩
  refine ⟨?_, ⟨d, hd, hdle⟩, ?_⟩
  · simp only [fallbackArchetypes, List.mem_cons, List.mem_singleton] at ha
    rcases ha with rfl | rfl | rfl | h
    · exact ⟨_, _, rfl, rfl, rfl⟩
    · exact ⟨_, _, rfl, rfl, rfl⟩
    · exact ⟨_, _, rfl, rfl, rfl⟩
    · simp at h
  · simp only [fallbackArchetypes, List.mem_cons, List.mem_singleton] at ha
    rcases ha with rfl | rfl | rfl | h
    · rfl
    · rfl
    · rfl
    · simp at h

theorem search_inv (hav : ℚ → ℚ → ℚ → ℚ → ℚ) (hasKey : Bool)
    (resp : Except Unit (Option (List Place))) (u : GeoPoint) (maxD : ℚ) :
    ∀ s ∈ searchRealNearbyStores hav hasKey resp u maxD,
      DistOk hav u s ∧ WithinB maxD s := by
  intro s hs
  unfold searchRealNearbyStores at hs
  by_cases hk : (!hasKey) = true
  · rw [if_pos hk] at hs
    exact ⟨(genFallback_inv hav u maxD s hs).1, (genFallback_inv hav u maxD s hs).2.1⟩
  · rw [if_neg hk] at hs
    cases hresp : resp with
    | error e =>
        rw [hresp] at hs
        exact ⟨(genFallback_inv hav u maxD s hs).1, (genFallback_inv hav u maxD s hs).2.1⟩
    | ok o =>
        cases o with
        | none =>
            rw [hresp] at hs
            exact ⟨(genFallback_inv hav u maxD s hs).1,
              (genFallback_inv hav u maxD s hs).2.1⟩
        | some places =>
            rw [hresp] at hs
            simp only at hs
            by_cases hlen : places.length = 0
            · rw [if_pos hlen] at hs
              exact ⟨(genFallback_inv hav u maxD s hs).1,
                (genFallback_inv hav u maxD s hs).2.1⟩
            · rw [if_neg hlen] at hs
              rw [List.mem_filter] at hs
              rcases hs with ⟨hmem, hpred⟩
              rcases List.mem_map.mp hmem with ⟨p, _, rfl⟩
              rcases distLe_true hpred with ⟨d, hd, hdle⟩
              exact ⟨⟨jsNum p.locLat u.latitude, jsNum p.locLng u.longitude,
                rfl, rfl, rfl⟩, ⟨d, hd, hdle⟩⟩

theorem applyStrictStep_distOk {hav : ℚ → ℚ → ℚ → ℚ → ℚ} {u : GeoPoint} {maxD : ℚ}
    {store s' : Store} (hok : DistOk hav u store)
    (h : applyStrictStep hav u maxD store = some s') :
    DistOk hav u s' ∧ WithinB maxD s' := by
  rcases hok with ⟨la, ln, hla, hln, hdist⟩
  unfold applyStrictStep at h
  by_cases hz : calculateDistance hav u.latitude u.longitude la ln = 0
  · have htr : truthyQ store.distance = false := by
      rw [hdist, hz]; simp [truthyQ]
    rw [htr] at h
    simp only [Bool.false_eq_true, if_false, hla, hln] at h
    by_cases hle : calculateDistance hav u.latitude u.longitude la ln ≤ maxD
    · rw [if_pos hle] at h
      rcases Option.some.injEq _ _ ▸ h with rfl
      exact ⟨⟨la, ln, hla, hln, rfl⟩, ⟨_, rfl, hle⟩⟩
    · rw [if_neg hle] at h
      simp at h
  · have htr : truthyQ store.distance = true := by
      rw [hdist]; simp [truthyQ, hz]
    rw [htr] at h
    simp only [if_true, hdist] at h
    by_cases hle : calculateDistance hav u.latitude u.longitude la ln ≤ maxD
    · rw [if_pos hle] at h
      rcases Option.some.injEq _ _ ▸ h with rfl
      exact ⟨⟨la, ln, hla, hln, rfl⟩, ⟨_, rfl, hle⟩⟩
    · rw [if_neg hle] at h
      simp at h

theorem strictFilter_inv {hav : ℚ → ℚ → ℚ → ℚ → ℚ} {u : GeoPoint} {maxD : ℚ}
    {stores : List Store} (hin : ∀ s ∈ stores, DistOk hav u s) :
    ∀ s' ∈ applyStrictDistanceFilter hav stores u maxD,
      DistOk hav u s' ∧ WithinB maxD s' := by
  intro s' hs'
  unfold applyStrictDistanceFilter at hs'
  rcases List.mem_filterMap.mp hs' with ⟨s, hs, hstep⟩
  exact applyStrictStep_distOk (hin s hs) hstep

theorem mem_sortByDistanceAndRelevance {stores : List Store} {s' : Store}
    (h : s' ∈ sortByDistanceAndRelevance stores) :
    ∃ s ∈ stores, s'.coordinates = s.coordinates ∧ s'.distance = s.distance := by
  unfold sortByDistanceAndRelevance at h
  rw [mem_jsSort] at h
  rcases List.mem_map.mp h with ⟨s, hs, rfl⟩
  exact ⟨s, hs, rfl, rfl⟩

theorem aiPipelineResult_inv (hav : ℚ → ℚ → ℚ → ℚ → ℚ) (w : World) (u : GeoPoint)
    (maxD : ℚ) :
    ∀ s ∈ aiPipelineResult hav w u maxD, DistOk hav u s ∧ WithinB maxD s := by
  intro s hs
  unfold aiPipelineResult at hs
  have hs2 := List.mem_of_mem_take hs
  rcases mem_sortByDistanceAndRelevance hs2 with ⟨s3, hs3, hc3, hd3⟩
  have hverify : ∀ x ∈ verifyPartAvailability w.hasOpenAIKey w.verifyResp
      (searchRealNearbyStores hav w.hasGooglePlacesKey w.placesResp u maxD),
      DistOk hav u x := by
    refine verify_mem_cases _ _ _ ?_ ?_
    · intro x hx
      rcases mem_heuristicStoreFiltering.mp hx with ⟨y, hy, rfl, _⟩
      exact DistOk_transfer (heuristicDecorate_coordinates y) (heuristicDecorate_distance y)
        (search_inv hav _ _ u maxD y hy).1
    · intro y hy ev _
      exact DistOk_transfer rfl rfl (search_inv hav _ _ u maxD y hy).1
  have h3 := strictFilter_inv hverify s3 hs3
  exact ⟨DistOk_transfer hc3 hd3 h3.1, WithinB_transfer hd3 h3.2⟩

theorem sfFilterStep_some_bound {hav : ℚ → ℚ → ℚ → ℚ → ℚ} {u : GeoPoint} {maxD : ℚ}
    {store s' : Store} (h : sfFilterStep hav u maxD store = some s') :
    WithinB maxD s' := by
  unfold sfFilterStep at h
  cases hd : store.distance with
  | some d =>
      rw [hd] at h
      simp only at h
      by_cases hle : d ≤ maxD
      · rw [if_pos hle] at h
        rcases Option.some.injEq _ _ ▸ h with rfl
        exact ⟨d, hd, hle⟩
      · rw [if_neg hle] at h
        simp at h
  | none =>
      rw [hd] at h
      simp only at h
      by_cases hguard : truthyQ (jsCoalesce store.coordinates.lat store.latitude) = true ∧
          truthyQ (jsCoalesce store.coordinates.lng store.longitude) = true
      · rw [if_pos hguard] at h
        by_cases hle : calculateDistance hav u.latitude u.longitude
            ((jsCoalesce store.coordinates.lat store.latitude).getD 0)
            ((jsCoalesce store.coordinates.lng store.longitude).getD 0) ≤ maxD
        · rw [if_pos hle] at h
          rcases Option.some.injEq _ _ ▸ h with rfl
          exact ⟨_, rfl, hle⟩
        · rw [if_neg hle] at h
          simp at h
      · rw [if_neg hguard] at h
        simp at h

theorem sfFilterStep_of_some {hav : ℚ → ℚ → ℚ → ℚ → ℚ} {u : GeoPoint} {maxD : ℚ}
    {store s' : Store} {d : ℚ} (hd : store.distance = some d)
    (h : sfFilterStep hav u maxD store = some s') : s' = store ∧ d ≤ maxD := by
  unfold sfFilterStep at h
  rw [hd] at h
  simp only at h
  by_cases hle : d ≤ maxD
  · rw [if_pos hle] at h
    exact ⟨(Option.some.injEq _ _ ▸ h).symm, hle⟩
  · rw [if_neg hle] at h
    simp at h

theorem sfFilterStep_none_of_unusable {hav : ℚ → ℚ → ℚ → ℚ → ℚ} {u : GeoPoint}
    {maxD : ℚ} {store : Store} (hd : store.distance = none)
    (hbad : truthyQ (jsCoalesce store.coordinates.lat store.latitude) = false ∨
      truthyQ (jsCoalesce store.coordinates.lng store.longitude) = false) :
    sfFilterStep hav u maxD store = none := by
  unfold sfFilterStep
  rw [hd]
  simp only
  rw [if_neg]
  rintro ⟨h1, h2⟩
  rcases hbad with hb | hb
  · rw [h1] at hb; simp at hb
  · rw [h2] at hb; simp at hb

theorem filterStoresByDistance_bound (hav : ℚ → ℚ → ℚ → ℚ → ℚ) (stores : List Store)
    (u : GeoPoint) (maxD : ℚ) :
    ∀ s' ∈ filterStoresByDistance hav stores u maxD, WithinB maxD s' := by
  intro s' hs'
  unfold filterStoresByDistance at hs'
  rcases List.mem_filterMap.mp hs' with ⟨s, _, hstep⟩
  exact sfFilterStep_some_bound hstep

theorem sfDecorate_coordinates (hav : ℚ → ℚ → ℚ → ℚ → ℚ) (u : GeoPoint)
    (part : PartInfo) (s : Store) :
    (sfDecorate hav u part s).coordinates = s.coordinates := by
  unfold sfDecorate
  cases hd : s.distance with
  | some d =>
      simp only
      cases (sfGetAvailabilityStatus (jsNum s.likelihood 50)) <;>
      cases hava : s.availability <;> cases hest : s.estimatedPrice <;>
        simp [hava, hest]
  | none =>
      simp only
      by_cases hguard : truthyQ (jsCoalesce s.coordinates.lat s.latitude) = true ∧
          truthyQ (jsCoalesce s.coordinates.lng s.longitude) = true
      · rw [if_pos hguard]
        cases hava : s.availability <;> cases hest : s.estimatedPrice <;> simp [hava, hest]
      · rw [if_neg hguard]
        cases hava : s.availability <;> cases hest : s.estimatedPrice <;> simp [hava, hest]

theorem sfDecorate_distance_of_some (hav : ℚ → ℚ → ℚ → ℚ → ℚ) (u : GeoPoint)
    (part : PartInfo) (s : Store) (d : ℚ) (hd : s.distance = some d) :
    (sfDecorate hav u part s).distance = some d := by
  unfold sfDecorate
  rw [hd]
  simp only
  cases hava : s.availability <;> cases hest : s.estimatedPrice <;> simp [hava, hest, hd]

theorem mem_sfSort {hav : ℚ → ℚ → ℚ → ℚ → ℚ} {stores : List Store} {u : GeoPoint}
    {part : PartInfo} {s' : Store}
    (h : s' ∈ sfSortByDistanceAndRelevance hav stores u part) :
    ∃ s ∈ stores, s' = sfDecorate hav u part s := by
  unfold sfSortByDistanceAndRelevance at h
  rw [mem_jsSort] at h
  rcases List.mem_map.mp h with ⟨s, hs, rfl⟩
  exact ⟨s, hs, rfl⟩

theorem sfPipelineResult_inv (hav : ℚ → ℚ → ℚ → ℚ → ℚ) (w : World) (part : PartInfo)
    (u : GeoPoint) (maxD : ℚ) :
    ∀ s ∈ sfPipelineResult hav w part u maxD, DistOk hav u s ∧ WithinB maxD s := by
  intro s hs
  unfold sfPipelineResult at hs
  have hs2 := List.mem_of_mem_take hs
  rcases mem_sfSort hs2 with ⟨s3, hs3, rfl⟩
  unfold filterStoresByDistance at hs3
  rcases List.mem_filterMap.mp hs3 with ⟨s4, hs4, hstep⟩
  have h4 := aiPipelineResult_inv hav w u maxD s4 hs4
  rcases h4.2 with ⟨d4, hd4, hd4le⟩
  rcases sfFilterStep_of_some hd4 hstep with ⟨heq, -⟩
  subst heq
  have hdist := sfDecorate_distance_of_some hav u part _ d4 hd4
  have hcoord := sfDecorate_coordinates hav u part s3
  exact ⟨DistOk_transfer hcoord (by rw [hdist, hd4]) h4.1,
    WithinB_transfer (by rw [hdist, hd4]) h4.2⟩

theorem findNearbyStoresE_eq (hav : ℚ → ℚ → ℚ → ℚ → ℚ) (w : World) (part : PartInfo)
    (u : GeoPoint) (maxD : ℚ) :
    findNearbyStoresE hav w part u maxD = Except.ok (aiPipelineResult hav w u maxD) := rfl

theorem storeFinderFindNearbyStoresE_eq (hav : ℚ → ℚ → ℚ → ℚ → ℚ) (w : World)
    (part : PartInfo) (u : GeoPoint) (maxD : ℚ) :
    storeFinderFindNearbyStoresE hav w part u maxD =
      Except.ok (sfPipelineResult hav w part u maxD) := rfl

/-! ### Claim theorems -/

/-- C1: For every store in the list returned by a search (including results
produced by the fallback generator), the distance from the request origin to
the store's location is at most the request's maxDistanceMiles, up to a
rounding epsilon of 0.05 miles: the stored (rounded) distance is within the
budget and the exact haversine value is within budget plus 1/20. -/
theorem claim1_distance_bound (hav : ℚ → ℚ → ℚ → ℚ → ℚ) (w : World)
    (part : PartInfo) (u : GeoPoint) (maxD : ℚ) (l : List Store)
    (hok : storeFinderFindNearbyStoresE hav w part u maxD = Except.ok l) :
    ∀ s ∈ l, ∃ la ln d, s.coordinates.lat = some la ∧ s.coordinates.lng = some ln ∧
      s.distance = some d ∧ d ≤ maxD ∧
      hav u.latitude u.longitude la ln ≤ maxD + 1 / 20 := by
  rw [storeFinderFindNearbyStoresE_eq] at hok
  have hl : l = sfPipelineResult hav w part u maxD := by
    cases hok; rfl
  subst hl
  intro s hs
  obtain ⟨hdo, hwb⟩ := sfPipelineResult_inv hav w part u maxD s hs
  rcases hdo with ⟨la, ln, hla, hln, hdist⟩
  rcases hwb with ⟨d, hd, hdle⟩
  have hde : d = calculateDistance hav u.latitude u.longitude la ln := by
    rw [hdist] at hd
    exact (Option.some.injEq _ _ ▸ hd).symm
  refine ⟨la, ln, d, hla, hln, hd, hdle, ?_⟩
  have heps := le_round1_add_eps (hav u.latitude u.longitude la ln)
  rw [hde] at hdle
  unfold calculateDistance at hdle
  linarith

/-- Witness for C1 at a concrete world, origin, part and distance function. -/
theorem claim1_distance_bound_witness :
    storeFinderFindNearbyStoresE hav2 w1 p0 u0 5 = Except.ok [w1out] ∧
    (∃ la ln d, w1out.coordinates.lat = some la ∧ w1out.coordinates.lng = some ln ∧
      w1out.distance = some d ∧ d ≤ 5 ∧
      hav2 u0.latitude u0.longitude la ln ≤ 5 + 1 / 20) :=
  ⟨by with_unfolding_all rfl,
   claim1_distance_bound hav2 w1 p0 u0 5 [w1out] (by with_unfolding_all rfl) w1out
    (List.mem_singleton.mpr rfl)⟩

/-- C2: whatever the outcome of the external classification oracle and the
places-search provider (unreachable, non-2xx, or unparseable, all modelled by
the arbitrary `World`), the pipeline returns a result list and never
surfaces an exception to the caller. -/
theorem claim2_upstream_failures_recovered (hav : ℚ → ℚ → ℚ → ℚ → ℚ) (w : World)
    (part : PartInfo) (u : GeoPoint) (maxD : ℚ) :
    ∃ l, storeFinderFindNearbyStoresE hav w part u maxD = Except.ok l :=
  ⟨_, storeFinderFindNearbyStoresE_eq hav w part u maxD⟩

theorem jsNum_of_pos {v : ℚ} (hv : 0 < v) (d : ℚ) : jsNum (some v) d = v := by
  show (if v = 0 then d else v) = v
  rw [if_neg (ne_of_gt hv)]

theorem cmpAI_add_eq_zero (a b : Store) : cmpAI a b + cmpAI b a = 0 := by
  unfold cmpAI
  by_cases habs : |a.relevanceScore - b.relevanceScore| > 15
  · rw [if_pos habs, if_pos (by rwa [abs_sub_comm] at habs)]
    ring
  · rw [if_neg habs, if_neg (by rwa [abs_sub_comm] at habs)]
    cases a.distance <;> cases b.distance <;> simp

theorem leAI_total (a b : Store) : leAI a b = true ∨ leAI b a = true := by
  unfold leAI
  rcases le_total (cmpAI a b) 0 with h | h
  · exact Or.inl (decide_eq_true h)
  · refine Or.inr (decide_eq_true ?_)
    have := cmpAI_add_eq_zero a b
    linarith

/-- C3 counterexample: a store with likelihood 100 at a rounded distance of
exactly 0.0 miles receives relevanceScore 100 - 999*10 = -9890 (the
JavaScript `store.distance || 999` treats a 0 distance as missing), not the
claimed likelihood - distance*10 = 100, and is therefore ranked below a
likelihood-60 store at 0.5 miles instead of above it. -/
theorem claim3_counterexample :
    sortByDistanceAndRelevance [c3a, c3b] =
      [{ c3b with relevanceScore := 55 }, { c3a with relevanceScore := -9890 }] ∧
    ({ c3a with relevanceScore := -9890 } : Store).relevanceScore ≠ 100 - 0 * 10 := by
  constructor
  · with_unfolding_all rfl
  · show (-9890 : ℚ) ≠ 100 - 0 * 10
    norm_num

/-- C3 (amended): the ranking step returns at most resultCap (5) stores; each
result carries relevanceScore = (likelihood, defaulting to 50 when missing or
zero) - (distanceMiles, defaulting to 999 when missing or zero) * 10; and
adjacent results are ordered by descending relevance except that scores
within the tie-break threshold 15 are ordered by ascending distance (stated
for inputs whose distance field is present, as holds for every store leaving
the strict distance filter). -/
theorem claim3_ranking_amended (stores : List Store)
    (h : ∀ s ∈ stores, s.distance.isSome = true) :
    ((sortByDistanceAndRelevance stores).take 5).length ≤ 5 ∧
    (∀ s' ∈ (sortByDistanceAndRelevance stores).take 5,
      s'.relevanceScore = jsNum s'.likelihood 50 - jsNum s'.distance 999 * 10) ∧
    List.Chain' (fun r1 r2 => r2.relevanceScore ≤ r1.relevanceScore ∨
      (|r1.relevanceScore - r2.relevanceScore| ≤ 15 ∧
        r1.distance.getD 999 ≤ r2.distance.getD 999))
      ((sortByDistanceAndRelevance stores).take 5) := by
  have hformula : ∀ s' ∈ sortByDistanceAndRelevance stores,
      s'.relevanceScore = jsNum s'.likelihood 50 - jsNum s'.distance 999 * 10 := by
    intro s' hs'
    unfold sortByDistanceAndRelevance at hs'
    rw [mem_jsSort] at hs'
    rcases List.mem_map.mp hs' with ⟨s, _, rfl⟩
    rfl
  have hsome : ∀ s' ∈ sortByDistanceAndRelevance stores, ∃ d, s'.distance = some d := by
    intro s' hs'
    unfold sortByDistanceAndRelevance at hs'
    rw [mem_jsSort] at hs'
    rcases List.mem_map.mp hs' with ⟨s, hs, rfl⟩
    have := h s hs
    rcases Option.isSome_iff_exists.mp this with ⟨d, hd⟩
    exact ⟨d, hd⟩
  refine ⟨List.length_take_le 5 _,
    fun s' hs' => hformula s' (List.mem_of_mem_take hs'), ?_⟩
  have hchain : List.Chain' (fun a b => leAI a b = true)
      (sortByDistanceAndRelevance stores) := by
    unfold sortByDistanceAndRelevance
    exact chain'_jsSort leAI_total _
  have himp : ∀ a b : Store, (∃ d, a.distance = some d) → (∃ d, b.distance = some d) →
      leAI a b = true → b.relevanceScore ≤ a.relevanceScore ∨
        (|a.relevanceScore - b.relevanceScore| ≤ 15 ∧
          a.distance.getD 999 ≤ b.distance.getD 999) := by
    intro a b hda hdb hle
    rcases hda with ⟨da, hda⟩
    rcases hdb with ⟨db, hdb⟩
    have hc : cmpAI a b ≤ 0 := of_decide_eq_true hle
    unfold cmpAI at hc
    by_cases habs : |a.relevanceScore - b.relevanceScore| > 15
    · rw [if_pos habs] at hc
      exact Or.inl (by linarith)
    · rw [if_neg habs] at hc
      rw [hda, hdb] at hc
      simp only at hc
      refine Or.inr ⟨le_of_not_lt habs, ?_⟩
      rw [hda, hdb]
      simp only [Option.getD_some]
      linarith
  exact (chain'_imp_of_mem hsome himp hchain).take 5

/-- Witness for C3 (amended), including the rounded-0.0-mile case. -/
theorem claim3_ranking_amended_witness :
    ((sortByDistanceAndRelevance [c3a, c3b]).take 5).length ≤ 5 ∧
    List.Chain' (fun r1 r2 => r2.relevanceScore ≤ r1.relevanceScore ∨
      (|r1.relevanceScore - r2.relevanceScore| ≤ 15 ∧
        r1.distance.getD 999 ≤ r2.distance.getD 999))
      ((sortByDistanceAndRelevance [c3a, c3b]).take 5) :=
  ⟨(claim3_ranking_amended [c3a, c3b] (by decide)).1,
   (claim3_ranking_amended [c3a, c3b] (by decide)).2.2⟩

theorem applyStrictStep_bound {hav : ℚ → ℚ → ℚ → ℚ → ℚ} {u : GeoPoint} {maxD : ℚ}
    {store s' : Store} (h : applyStrictStep hav u maxD store = some s') :
    ∃ d, s'.distance = some d ∧ d ≤ maxD := by
  unfold applyStrictStep at h
  by_cases ht : truthyQ store.distance = true
  · rw [if_pos ht] at h
    cases hsd : store.distance with
    | none => rw [hsd] at ht; simp [truthyQ] at ht
    | some dc =>
        rw [hsd] at h
        simp only at h
        by_cases hle : dc ≤ maxD
        · rw [if_pos hle] at h
          rcases Option.some.injEq _ _ ▸ h with rfl
          exact ⟨dc, rfl, hle⟩
        · rw [if_neg hle] at h
          simp at h
  · rw [if_neg ht] at h
    cases hla : store.coordinates.lat with
    | none => rw [hla] at h; simp at h
    | some la =>
        cases hln : store.coordinates.lng with
        | none => rw [hla, hln] at h; simp at h
        | some ln =>
            rw [hla, hln] at h
            simp only at h
            by_cases hle : calculateDistance hav u.latitude u.longitude la ln ≤ maxD
            · rw [if_pos hle] at h
              rcases Option.some.injEq _ _ ▸ h with rfl
              exact ⟨_, rfl, hle⟩
            · rw [if_neg hle] at h
              simp at h

/-- C4 counterexample: a candidate with a cached 1-mile distance whose
recomputed distance would be 100 miles is kept by the code's filter but
dropped by the specification's always-recompute filter. -/
theorem claim4_counterexample :
    applyStrictDistanceFilter hav100 [s4] u0 5 = [s4] ∧
    applyStrictDistanceFilterSpec hav100 [s4] u0 5 = [] := by
  constructor
  · with_unfolding_all rfl
  · with_unfolding_all rfl

theorem applyStrictStep_eq (hav : ℚ → ℚ → ℚ → ℚ → ℚ) (u : GeoPoint) (maxD : ℚ)
    (store : Store) :
    applyStrictStep hav u maxD store =
      match effectiveDistance hav u store with
      | some d => if d ≤ maxD then some { store with distance := some d } else none
      | none => none := rfl

theorem applyStrictStep_eq_some_iff {hav : ℚ → ℚ → ℚ → ℚ → ℚ} {u : GeoPoint}
    {maxD : ℚ} {store s' : Store} :
    applyStrictStep hav u maxD store = some s' ↔
      ∃ d, effectiveDistance hav u store = some d ∧ d ≤ maxD ∧
        s' = { store with distance := some d } := by
  rw [applyStrictStep_eq]
  cases he : effectiveDistance hav u store with
  | none =>
      simp only
      constructor
      · intro h; cases h
      · rintro ⟨d, hd, -, -⟩; cases hd
  | some d =>
      simp only
      by_cases hle : d ≤ maxD
      · rw [if_pos hle]
        constructor
        · intro h
          exact ⟨d, rfl, hle, (Option.some.injEq _ _ ▸ h).symm⟩
        · rintro ⟨d2, hd2, -, rfl⟩
          rcases Option.some.injEq _ _ ▸ hd2 with rfl
          rfl
      · rw [if_neg hle]
        constructor
        · intro h; cases h
        · rintro ⟨d2, hd2, hle2, rfl⟩
          rcases Option.some.injEq _ _ ▸ hd2 with rfl
          exact absurd hle2 hle

/-- C4 (amended): the distance filter forms an effective distance for each
candidate - the cached distance when present and truthy, otherwise the
distance recomputed from the coordinates when both are present, otherwise
undefined - and keeps exactly those candidates whose effective distance is
defined and at most maxDistanceMiles (storing it on the result), dropping
all others; every kept store's stored distance is within the budget; a
truthy cached distance is used as-is, never recomputed. -/
theorem claim4_filter_amended :
    (∀ (hav : ℚ → ℚ → ℚ → ℚ → ℚ) (stores : List Store) (u : GeoPoint) (maxD : ℚ)
      (s' : Store),
      s' ∈ applyStrictDistanceFilter hav stores u maxD ↔
        ∃ s ∈ stores, ∃ d, effectiveDistance hav u s = some d ∧ d ≤ maxD ∧
          s' = { s with distance := some d }) ∧
    (∀ (hav : ℚ → ℚ → ℚ → ℚ → ℚ) (stores : List Store) (u : GeoPoint) (maxD : ℚ),
      ∀ s' ∈ applyStrictDistanceFilter hav stores u maxD,
        ∃ d, s'.distance = some d ∧ d ≤ maxD) ∧
    (∀ (hav : ℚ → ℚ → ℚ → ℚ → ℚ) (u : GeoPoint) (s : Store) (d : ℚ),
      s.distance = some d → d ≠ 0 → effectiveDistance hav u s = some d) := by
  refine ⟨?_, ?_, ?_⟩
  · intro hav stores u maxD s'
    unfold applyStrictDistanceFilter
    rw [List.mem_filterMap]
    constructor
    · rintro ⟨s, hs, hstep⟩
      rcases applyStrictStep_eq_some_iff.mp hstep with ⟨d, hd, hle, rfl⟩
      exact ⟨s, hs, d, hd, hle, rfl⟩
    · rintro ⟨s, hs, d, hd, hle, rfl⟩
      exact ⟨s, hs, applyStrictStep_eq_some_iff.mpr ⟨d, hd, hle, rfl⟩⟩
  · intro hav stores u maxD s' hs'
    rcases List.mem_filterMap.mp hs' with ⟨s, _, hstep⟩
    exact applyStrictStep_bound hstep
  · intro hav u s d hd hdz
    unfold effectiveDistance
    rw [if_pos]
    · exact hd
    · rw [hd]
      simp [truthyQ, hdz]

/-- Witness for C4 (amended), exercising the recompute branch at a candidate
with a falsy (zero) cached distance. -/
theorem claim4_filter_amended_witness :
    ({ s4z with distance := some 2 } : Store) ∈
      applyStrictDistanceFilter hav2 [s4z] u0 5 ∧
    (∃ d, ({ s4z with distance := some 2 } : Store).distance = some d ∧ d ≤ 5) := by
  have hm : ({ s4z with distance := some 2 } : Store) ∈
      applyStrictDistanceFilter hav2 [s4z] u0 5 :=
    (claim4_filter_amended.1 hav2 [s4z] u0 5 _).mpr
      ⟨s4z, List.mem_singleton.mpr rfl, 2, by with_unfolding_all rfl, by norm_num, rfl⟩
  exact ⟨hm, claim4_filter_amended.2.1 hav2 [s4z] u0 5 _ hm⟩

/-- C5: any candidate matching the hard-exclusion list scores exactly 0,
overriding all positive keyword, type and proximity contributions, and no
excluded candidate ever appears in the heuristic filter's output. -/
theorem claim5_hard_exclusion :
    (∀ s : Store, excludedStore s = true → heuristicRawScore s = 0) ∧
    (∀ (stores : List Store), ∀ s' ∈ heuristicStoreFiltering stores,
      excludedStore s' = false) := by
  constructor
  · intro s hx
    rw [heuristicRawScore_eq, if_pos hx]
  · intro stores s' hs'
    rcases mem_heuristicStoreFiltering.mp hs' with ⟨s, _, rfl, hle⟩
    rw [excludedStore_heuristicDecorate]
    by_contra hx
    have hxt : excludedStore s = true := by
      cases hb : excludedStore s
      · exact absurd hb hx
      · rfl
    have h0 : heuristicRawScore s = 0 := by rw [heuristicRawScore_eq, if_pos hxt]
    rw [h0] at hle
    norm_num [clampLikelihood] at hle

/-- Witness for C5 at the hybrid name "Home Depot Cafe". -/
theorem claim5_hard_exclusion_witness :
    excludedStore hdCafe = true ∧ heuristicRawScore hdCafe = 0 :=
  ⟨by with_unfolding_all decide,
   claim5_hard_exclusion.1 hdCafe (by with_unfolding_all decide)⟩

/-- C6 counterexample: a hardware store at exactly 0.0 miles gets no proximity
bonus from the code (the JavaScript `||` treats a 0 distance as missing) and
is dropped, while the specification's scorer (+15 for distance ≤ 1 mile)
would keep it with likelihood 65. -/
theorem claim6_counterexample :
    heuristicStoreFiltering [s6] = [] ∧
    heuristicStoreFilteringSpec [s6] =
      [{ s6 with likelihood := some 65, aiReason := some heuristicReasonYes }] := by
  constructor
  · with_unfolding_all rfl
  · with_unfolding_all rfl

/-- C6 (amended): the heuristic scorer starts at base 20; the proximity bonus
(+15 / +10 / +5 at 1 / 2 / 3 miles) is applied to the JavaScript-truthy
distance, so a missing or exactly-zero distance is treated as 999 miles and
gets no bonus; exclusions force 0; the stored likelihood is clamped to
[0, 100] and candidates below 60 are dropped. -/
theorem claim6_heuristic_scoring_amended :
    (∀ s : Store, heuristicRawScore s =
      if excludedStore s = true then 0
      else 20 + keywordPoints (lowerStr s.name) + typePoints (lowerStr (joinSpace s.types)) +
        proximityPoints (jsNum s.distance 999)) ∧
    (∀ (stores : List Store), ∀ s' ∈ heuristicStoreFiltering stores,
      ∃ n : ℤ, s'.likelihood = some (n : ℚ) ∧ 0 ≤ n ∧ n ≤ 100 ∧ 60 ≤ n) :=
  ⟨heuristicRawScore_eq, fun _ _ hs' => heuristic_output_likelihood hs'⟩

/-- Witness for C6 (amended) at a concrete surviving store. -/
theorem claim6_heuristic_scoring_amended_witness :
    heuristicDecorate s6w ∈ heuristicStoreFiltering [s6w] ∧
    (∃ n : ℤ, (heuristicDecorate s6w).likelihood = some (n : ℚ) ∧
      0 ≤ n ∧ n ≤ 100 ∧ 60 ≤ n) := by
  have hm : heuristicDecorate s6w ∈ heuristicStoreFiltering [s6w] := by
    with_unfolding_all decide
  exact ⟨hm, claim6_heuristic_scoring_amended.2 [s6w] _ hm⟩

/-- C7 counterexample: an oracle response repeating a valid tag five times
yields a five-entry result, violating the claimed bound of at most 4. -/
theorem claim7_counterexample :
    4 < (determineStoreTypes true (Except.ok (some dupTags))).length := by
  with_unfolding_all decide

/-- C7 (amended): the classifier always returns a non-empty list of tags drawn
from the closed tag set (duplicates from the oracle are preserved, so the
length may exceed 4); on oracle error, missing JSON, or an empty valid-tag
list, the result is exactly the four-tag fallback set; it never fails. -/
theorem claim7_classifier_amended (hasKey : Bool)
    (resp : Except Unit (Option (List String))) :
    determineStoreTypes hasKey resp ≠ [] ∧
    (∀ t ∈ determineStoreTypes hasKey resp, t ∈ validStoreTypes) ∧
    (∀ e, resp = Except.error e → determineStoreTypes hasKey resp = getFallbackStoreTypes) ∧
    (resp = Except.ok none → determineStoreTypes hasKey resp = getFallbackStoreTypes) ∧
    (∀ ts, resp = Except.ok (some ts) →
      ts.filter (fun t => decide (t ∈ validStoreTypes)) = [] →
      determineStoreTypes hasKey resp = getFallbackStoreTypes) := by
  have hfb1 : getFallbackStoreTypes ≠ [] := by decide
  have hfb2 : ∀ t ∈ getFallbackStoreTypes, t ∈ validStoreTypes := by decide
  cases hasKey with
  | false =>
      refine ⟨hfb1, hfb2, ?_, ?_, ?_⟩ <;> intros <;> rfl
  | true =>
      cases resp with
      | error e =>
          refine ⟨hfb1, hfb2, ?_, ?_, ?_⟩
          · intro _ _; rfl
          · intro h; cases h
          · intro _ h; cases h
      | ok o =>
          cases o with
          | none =>
              refine ⟨hfb1, hfb2, ?_, ?_, ?_⟩
              · intro _ h; cases h
              · intro _; rfl
              · intro _ h; cases h
          | some ts =>
              have hred : determineStoreTypes true (Except.ok (some ts)) =
                  if (ts.filter (fun t => decide (t ∈ validStoreTypes))).length > 0
                  then ts.filter (fun t => decide (t ∈ validStoreTypes))
                  else getFallbackStoreTypes := rfl
              by_cases hl : (ts.filter (fun t => decide (t ∈ validStoreTypes))).length > 0
              · rw [hred, if_pos hl]
                refine ⟨?_, ?_, ?_, ?_, ?_⟩
                · exact List.ne_nil_of_length_pos hl
                · intro t ht
                  have := (List.mem_filter.mp ht).2
                  exact of_decide_eq_true this
                · intro _ h; cases h
                · intro h; cases h
                · intro ts' h hfil
                  rcases Except.ok.injEq _ _ ▸ h with h2
                  rcases Option.some.injEq _ _ ▸ h2 with rfl
                  rw [hfil] at hl
                  simp at hl
              · rw [hred, if_neg hl]
                refine ⟨hfb1, hfb2, ?_, ?_, ?_⟩
                · intro _ h; cases h
                · intro h; cases h
                · intro _ _ _; rfl

/-- Witness for C7 (amended) with a failing oracle. -/
theorem claim7_classifier_amended_witness :
    determineStoreTypes false (Except.error ()) ≠ [] ∧
    determineStoreTypes false (Except.error ()) = getFallbackStoreTypes :=
  ⟨(claim7_classifier_amended false (Except.error ())).1,
   (claim7_classifier_amended false (Except.error ())).2.2.1 () rfl⟩

/-- C8: when every external source fails, the fallback generator returns
between 1 and 5 stores (assuming, as holds for the real haversine at the
generator's scaled offsets, that at least one archetype's rounded distance is
within the budget), every one within the distance budget and every one
tagged with the synthetic provenance marker `source = "fallback"`. -/
theorem claim8_fallback_generator (hav : ℚ → ℚ → ℚ → ℚ → ℚ) (u : GeoPoint)
    (maxD : ℚ)
    (h : ∃ a ∈ fallbackArchetypes u maxD,
      calculateDistance hav u.latitude u.longitude (a.coordinates.lat.getD 0)
        (a.coordinates.lng.getD 0) ≤ maxD) :
    1 ≤ (generateFallbackStores hav u maxD).length ∧
    (generateFallbackStores hav u maxD).length ≤ 5 ∧
    ∀ s ∈ generateFallbackStores hav u maxD,
      s.source = "fallback" ∧ ∃ d, s.distance = some d ∧ d ≤ maxD := by
  refine ⟨?_, ?_, ?_⟩
  · rcases h with ⟨a, ha, hle⟩
    have hpred : distLe (fallbackDecorate hav u a) maxD = true := by
      unfold distLe
      have hda : (fallbackDecorate hav u a).distance =
          some (calculateDistance hav u.latitude u.longitude
            (a.coordinates.lat.getD 0) (a.coordinates.lng.getD 0)) := rfl
      rw [hda]
      exact decide_eq_true hle
    have hmem : fallbackDecorate hav u a ∈
        ((fallbackArchetypes u maxD).map (fallbackDecorate hav u)).filter
          (fun store => distLe store maxD) :=
      List.mem_filter.mpr ⟨List.mem_map_of_mem _ ha, hpred⟩
    unfold generateFallbackStores
    rw [length_jsSort]
    exact Nat.succ_le_of_lt (List.length_pos.mpr (List.ne_nil_of_mem hmem))
  · unfold generateFallbackStores
    rw [length_jsSort]
    have h1 : (((fallbackArchetypes u maxD).map (fallbackDecorate hav u)).filter
        (fun store => distLe store maxD)).length ≤
        ((fallbackArchetypes u maxD).map (fallbackDecorate hav u)).length :=
      List.length_filter_le _ _
    have h2 : ((fallbackArchetypes u maxD).map (fallbackDecorate hav u)).length = 3 := by
      rw [List.length_map]
      rfl
    omega
  · intro s hs
    exact ⟨(genFallback_inv hav u maxD s hs).2.2, (genFallback_inv hav u maxD s hs).2.1⟩

/-- Witness for C8 at a concrete origin and budget. -/
theorem claim8_fallback_generator_witness :
    1 ≤ (generateFallbackStores hav0 u0 5).length ∧
    (generateFallbackStores hav0 u0 5).length ≤ 5 :=
  ⟨(claim8_fallback_generator hav0 u0 5 (by with_unfolding_all decide)).1,
   (claim8_fallback_generator hav0 u0 5 (by with_unfolding_all decide)).2.1⟩

/-- C9 counterexample: the oracle-mode verifier accepts an evaluation with
likelihood 150 and passes it through unvalidated, so a returned likelihood
can exceed 100. -/
theorem claim9_counterexample :
    (verifyPartAvailability true (Except.ok (some [evalBad])) [sC9]).map
      Store.likelihood = [some 150] ∧ ¬((150 : ℚ) ≤ 100) := by
  constructor
  · with_unfolding_all rfl
  · norm_num

/-- C9 (amended): every store returned by the availability verifier carries a
likelihood of at least 60; in heuristic mode the likelihood is additionally
an integer in [0, 100], but in oracle mode the oracle's reported value is
passed through with only the ≥ 60 check. -/
theorem claim9_verifier_amended :
    (∀ (hasKey : Bool) (resp : Except Unit (Option (List Evaluation)))
      (stores : List Store), ∀ s' ∈ verifyPartAvailability hasKey resp stores,
        ∃ v, s'.likelihood = some v ∧ 60 ≤ v) ∧
    (∀ (stores : List Store), ∀ s' ∈ heuristicStoreFiltering stores,
      ∃ n : ℤ, s'.likelihood = some (n : ℚ) ∧ 0 ≤ n ∧ n ≤ 100 ∧ 60 ≤ n) := by
  constructor
  · intro hasKey resp stores
    refine verify_mem_cases hasKey resp stores ?_ ?_
    · intro s' hs'
      rcases heuristic_output_likelihood hs' with ⟨n, hn, _, _, h60⟩
      exact ⟨(n : ℚ), hn, by exact_mod_cast h60⟩
    · intro s _ ev h60
      exact ⟨ev.likelihood, rfl, h60⟩
  · intro stores s' hs'
    exact heuristic_output_likelihood hs'

/-- Witness for C9 (amended) through the heuristic fallback path. -/
theorem claim9_verifier_amended_witness :
    heuristicDecorate s9w ∈ verifyPartAvailability false (Except.error ()) [s9w] ∧
    (∃ v, (heuristicDecorate s9w).likelihood = some v ∧ 60 ≤ v) := by
  have hm : heuristicDecorate s9w ∈ verifyPartAvailability false (Except.error ()) [s9w] := by
    with_unfolding_all decide
  exact ⟨hm, claim9_verifier_amended.1 false (Except.error ()) [s9w] _ hm⟩

/-- C10: a candidate with neither a precomputed distance nor usable
coordinates is silently excluded by the distance filter (no exception), and
every store in the filter's output has a defined distance within the
budget. -/
theorem claim10_missing_coordinates :
    (∀ (hav : ℚ → ℚ → ℚ → ℚ → ℚ) (stores : List Store) (u : GeoPoint) (maxD : ℚ),
      ∀ s' ∈ filterStoresByDistance hav stores u maxD,
        ∃ d, s'.distance = some d ∧ d ≤ maxD) ∧
    (∀ (hav : ℚ → ℚ → ℚ → ℚ → ℚ) (u : GeoPoint) (maxD : ℚ) (s : Store),
      s.distance = none →
      (truthyQ (jsCoalesce s.coordinates.lat s.latitude) = false ∨
       truthyQ (jsCoalesce s.coordinates.lng s.longitude) = false) →
      sfFilterStep hav u maxD s = none) := by
  constructor
  · intro hav stores u maxD s' hs'
    exact filterStoresByDistance_bound hav stores u maxD s' hs'
  · intro hav u maxD s hd hbad
    exact sfFilterStep_none_of_unusable hd hbad

/-- Witness for C10 at a store with no distance and no coordinates. -/
theorem claim10_missing_coordinates_witness :
    sfFilterStep hav0 u0 5 s10 = none ∧ (∃ d, s4.distance = some d ∧ d ≤ 5) := by
  constructor
  · exact claim10_missing_coordinates.2 hav0 u0 5 s10 rfl (Or.inl (by decide))
  · refine claim10_missing_coordinates.1 hav0 [s4] u0 5 s4 ?_
    with_unfolding_all decide
